import Mathlib

/-!
NycaTech Vulkan renderer: device selection, swapchain and frame-loop model.

A shallow embedding of `src/core/renderer/vulkan_renderer.cc`.

* Vulkan handles are natural numbers; Vulkan enumerators carry the numeric
  values of the Vulkan headers.
* The replies of the Vulkan driver are explicit inputs (`PhysicalDevice`,
  `Driver`); every `vk*` call a member function issues is appended to a log of
  `Call`s, so that ordering and absence of calls can be stated.
* Member functions that mutate the renderer return the new renderer state.
-/

namespace NycaTech.Renderer

/-! ## Vulkan enumerators used by the source -/

abbrev VkResult := Int
abbrev VkFormat := Nat
abbrev VkColorSpaceKHR := Nat
abbrev VkPresentModeKHR := Nat
abbrev Handle := Nat

def VK_SUCCESS : VkResult := 0
def VK_INCOMPLETE : VkResult := 5
def VK_ERROR_DEVICE_LOST : VkResult := -4
def VK_SUBOPTIMAL_KHR : VkResult := 1000001003
def VK_ERROR_OUT_OF_DATE_KHR : VkResult := -1000001004

def VK_FORMAT_R8G8B8_UNORM : VkFormat := 23
def VK_FORMAT_B8G8R8_SRGB : VkFormat := 36
def VK_COLOR_SPACE_SRGB_NONLINEAR_KHR : VkColorSpaceKHR := 0
def VK_COLOR_SPACE_EXTENDED_SRGB_LINEAR_EXT : VkColorSpaceKHR := 1000104002

def VK_PRESENT_MODE_IMMEDIATE_KHR : VkPresentModeKHR := 0
def VK_PRESENT_MODE_MAILBOX_KHR : VkPresentModeKHR := 1
def VK_PRESENT_MODE_FIFO_KHR : VkPresentModeKHR := 2

def VK_PHYSICAL_DEVICE_TYPE_DISCRETE_GPU : Nat := 2
def VK_QUEUE_GRAPHICS_BIT : Nat := 1
def VK_KHR_SWAPCHAIN_EXTENSION_NAME : String := "VK_KHR_swapchain"
def UINT32_MAX : Nat := 4294967295

/-- The file-scope array `extensions` (lines 12-14). -/
def extensions : List String := [VK_KHR_SWAPCHAIN_EXTENSION_NAME]

structure VkSurfaceFormatKHR where
  format : VkFormat
  colorSpace : VkColorSpaceKHR
deriving DecidableEq, Repr

structure VkExtent2D where
  width : Nat
  height : Nat
deriving DecidableEq, Repr

structure VkSurfaceCapabilitiesKHR where
  minImageCount : Nat
  currentExtent : VkExtent2D
  currentTransform : Nat
deriving DecidableEq, Repr

/-! ## CreateSwapChain: the three selection lambdas (lines 365-386) -/

/-- The test of line 367: 8-bit BGR sRGB with the nonlinear sRGB colour space. -/
def isPreferredFormat (format : VkSurfaceFormatKHR) : Prop :=
  format.format = VK_FORMAT_B8G8R8_SRGB ∧ format.colorSpace = VK_COLOR_SPACE_SRGB_NONLINEAR_KHR

instance (format : VkSurfaceFormatKHR) : Decidable (isPreferredFormat format) := by
  unfold isPreferredFormat; infer_instance

/-- The range-for loop of `swapChainSurfaceFormat` (lines 366-370): the first
entry passing the test, when the loop returns from inside. -/
def swapChainSurfaceFormatLoop : List VkSurfaceFormatKHR → Option VkSurfaceFormatKHR
  | [] => none
  | format :: rest =>
    if isPreferredFormat format then some format else swapChainSurfaceFormatLoop rest

/-- The lambda `swapChainSurfaceFormat` (lines 365-372).  The fall-through
`return formats[0]` reads the first element, which exists only for a non-empty
vector; the non-emptiness is an explicit argument. -/
def swapChainSurfaceFormat (formats : List VkSurfaceFormatKHR) (h : formats ≠ []) :
    VkSurfaceFormatKHR :=
  match swapChainSurfaceFormatLoop formats with
  | some format => format
  | none => formats.head h

/-- The lambda `swapChainPresentMode` (lines 373-380). -/
def swapChainPresentMode : List VkPresentModeKHR → VkPresentModeKHR
  | [] => VK_PRESENT_MODE_FIFO_KHR
  | mode :: rest =>
    if mode = VK_PRESENT_MODE_MAILBOX_KHR then mode else swapChainPresentMode rest

/-- The lambda `swapChanExtent` (lines 381-386). -/
def swapChanExtent (capabilities : VkSurfaceCapabilitiesKHR) : VkExtent2D :=
  if capabilities.currentExtent.width ≠ UINT32_MAX then capabilities.currentExtent
  else { width := 1600, height := 900 }

/-! ## Device selection (lines 220-348) -/

/-- One queue family of an adapter: its `queueFlags` and the reply of
`vkGetPhysicalDeviceSurfaceSupportKHR` for that family and the renderer's surface. -/
structure QueueFamily where
  queueFlags : Nat
  surfaceSupport : Bool
deriving DecidableEq, Repr

/-- What the driver reports about one adapter for the renderer's surface. -/
structure PhysicalDevice where
  handle : Handle
  deviceType : Nat
  geometryShader : Bool
  fillModeNonSolid : Bool
  queueFamilies : List QueueFamily
  extensionNames : List String
  surfaceFormats : List VkSurfaceFormatKHR
  presentModes : List VkPresentModeKHR
deriving DecidableEq, Repr

/-- Reply of `vkGetPhysicalDeviceSurfaceSupportKHR(device, index, surface, &present)`.
An index past the adapter's family count is invalid usage; the reply is then taken
as `VK_FALSE`. -/
def vkGetPhysicalDeviceSurfaceSupportKHR (device : PhysicalDevice) (index : Nat) : Bool :=
  match device.queueFamilies[index]? with
  | some family => family.surfaceSupport
  | none => false

/-- Lambda `hasValidExtensions` (lines 222-235). -/
def hasValidExtensions (device : PhysicalDevice) : Bool :=
  extensions.all fun requiredExtension =>
    device.extensionNames.any fun other => other == requiredExtension

/-- Lambda `canPresent` (lines 236-240). -/
def canPresent (device : PhysicalDevice) (index : Nat) : Bool :=
  vkGetPhysicalDeviceSurfaceSupportKHR device index

/-- Lambda `isDiscreteGPU` (lines 241-245). -/
def isDiscreteGPU (device : PhysicalDevice) : Bool :=
  device.deviceType == VK_PHYSICAL_DEVICE_TYPE_DISCRETE_GPU

/-- Lambda `hasGeometryShader` (lines 246-250). -/
def hasGeometryShader (device : PhysicalDevice) : Bool :=
  device.geometryShader || device.fillModeNonSolid

/-- Lambda `hasAValidSwapChain` (lines 251-261). -/
def hasAValidSwapChain (device : PhysicalDevice) : Bool :=
  decide (device.surfaceFormats.length > 0) && decide (device.presentModes.length > 0)

/-- The condition of lines 270-271 for the adapter at position `i` of the
enumeration: `canPresent` receives the loop variable `i` as the queue family index. -/
def passesDeviceChecks (device : PhysicalDevice) (i : Nat) : Bool :=
  isDiscreteGPU device && hasGeometryShader device && canPresent device i
    && hasValidExtensions device && hasAValidSwapChain device

/-- The loop of `ChoosePhysicalDevice` (lines 268-274) from index `i` over the
remaining adapters; the second component is the member `physicalDevice`, which is
assigned at the top of every iteration. -/
def ChoosePhysicalDeviceLoop :
    Nat → List PhysicalDevice → Option PhysicalDevice → Bool × Option PhysicalDevice
  | _, [], physicalDevice => (false, physicalDevice)
  | i, device :: rest, _ =>
    if passesDeviceChecks device i then (true, some device)
    else ChoosePhysicalDeviceLoop (i + 1) rest (some device)

/-- Member `ChoosePhysicalDevice` (lines 220-276) on the enumerated adapters
`devices`, with the prior value of the member `physicalDevice`. -/
def ChoosePhysicalDevice (devices : List PhysicalDevice) (physicalDevice : Option PhysicalDevice) :
    Bool × Option PhysicalDevice :=
  ChoosePhysicalDeviceLoop 0 devices physicalDevice

/-- The selection rule in the words of the specification (section 4.1): discrete GPU;
geometry-shader or non-solid-fill feature; a queue family of the adapter can present
to the surface; the swapchain extension is exposed; at least one surface format and
one present mode. -/
def specSelectionRule (device : PhysicalDevice) : Prop :=
  device.deviceType = VK_PHYSICAL_DEVICE_TYPE_DISCRETE_GPU
  ∧ (device.geometryShader = true ∨ device.fillModeNonSolid = true)
  ∧ (∃ family ∈ device.queueFamilies, family.surfaceSupport = true)
  ∧ VK_KHR_SWAPCHAIN_EXTENSION_NAME ∈ device.extensionNames
  ∧ device.surfaceFormats ≠ [] ∧ device.presentModes ≠ []

instance (device : PhysicalDevice) : Decidable (specSelectionRule device) := by
  unfold specSelectionRule; infer_instance

/-- The test `queueFlags & VK_QUEUE_GRAPHICS_BIT` of lines 330 and 336. -/
def hasGraphicsBit (family : QueueFamily) : Bool :=
  family.queueFlags &&& VK_QUEUE_GRAPHICS_BIT != 0

/-- Result of `SuitableQueuesFound`: the returned flag and the two index members. -/
structure QueueSelection where
  found : Bool
  graphicsQueueIndex : Nat
  presentQueueIndex : Nat
deriving DecidableEq, Repr

/-- The loop of `SuitableQueuesFound` (lines 326-347) from index `i` over the
remaining families, with the two locals and the two index members. -/
def SuitableQueuesFoundLoop :
    Nat → List QueueFamily → Bool → Bool → Nat → Nat → QueueSelection
  | _, [], graphicsQueueFound, presentationQueueFound, graphicsQueueIndex, presentQueueIndex =>
    ⟨graphicsQueueFound && presentationQueueFound, graphicsQueueIndex, presentQueueIndex⟩
  | i, family :: rest, graphicsQueueFound, presentationQueueFound, graphicsQueueIndex,
      presentQueueIndex =>
    if hasGraphicsBit family && family.surfaceSupport then ⟨true, i, i⟩
    else if hasGraphicsBit family then
      SuitableQueuesFoundLoop (i + 1) rest true presentationQueueFound i presentQueueIndex
    else if family.surfaceSupport then
      SuitableQueuesFoundLoop (i + 1) rest graphicsQueueFound true graphicsQueueIndex i
    else
      SuitableQueuesFoundLoop (i + 1) rest graphicsQueueFound presentationQueueFound
        graphicsQueueIndex presentQueueIndex

/-- Member `SuitableQueuesFound` (lines 318-348) on the families of the chosen
adapter, with the prior values of the two index members. -/
def SuitableQueuesFound (families : List QueueFamily)
    (graphicsQueueIndex presentQueueIndex : Nat) : QueueSelection :=
  SuitableQueuesFoundLoop 0 families false false graphicsQueueIndex presentQueueIndex

/-- An integrated GPU with one queue family that does graphics and can present. -/
def integratedAdapter : PhysicalDevice :=
  { handle := 1, deviceType := 1, geometryShader := true, fillModeNonSolid := true,
    queueFamilies := [⟨7, true⟩],
    extensionNames := ["VK_KHR_swapchain"],
    surfaceFormats := [⟨36, 0⟩], presentModes := [2] }

/-- A discrete GPU with a geometry shader, the swapchain extension, one surface format,
one present mode and two queue families: family 0 does graphics and can present,
family 1 is transfer-only and cannot present. -/
def discreteAdapter : PhysicalDevice :=
  { handle := 2, deviceType := 2, geometryShader := true, fillModeNonSolid := true,
    queueFamilies := [⟨7, true⟩, ⟨4, false⟩],
    extensionNames := ["VK_KHR_swapchain"],
    surfaceFormats := [⟨36, 0⟩], presentModes := [2] }

/-! ## Renderer state, driver replies and the log of device calls -/

def VK_SHARING_MODE_EXCLUSIVE : Nat := 0
def VK_SHARING_MODE_CONCURRENT : Nat := 1

/-- The fields of `VkSwapchainCreateInfoKHR` that lines 392-412 compute. -/
structure VkSwapchainCreateInfoKHR where
  minImageCount : Nat
  imageFormat : VkFormat
  imageColorSpace : VkColorSpaceKHR
  imageExtent : VkExtent2D
  imageSharingMode : Nat
  queueFamilyIndexCount : Nat
  pQueueFamilyIndices : List Nat
  preTransform : Nat
  presentMode : VkPresentModeKHR
deriving DecidableEq, Repr

/-- A loaded model as `RecordCommandBuffer` reads it: its two buffers and
`indices.Count()`. -/
structure ObjModel where
  vertexBuffer : Handle
  indexBuffer : Handle
  indexCount : Nat
deriving DecidableEq, Repr

/-- The `vk*` calls issued by `DrawFrame` and the members it calls, with the
arguments the properties below speak about. -/
inductive Call where
  | vkWaitForFences (fence : Handle)
  | vkAcquireNextImageKHR (swapchain semaphore : Handle)
  | vkDeviceWaitIdle
  | vkGetPhysicalDeviceSurfaceFormatsKHR
  | vkGetPhysicalDeviceSurfacePresentModesKHR
  | vkGetPhysicalDeviceSurfaceCapabilitiesKHR
  | vkCreateSwapchainKHR (info : VkSwapchainCreateInfoKHR)
  | vkGetSwapchainImagesKHR
  | vkCreateImageView (image : Handle)
  | vkCreateFramebuffer (attachment : Handle) (width height : Nat)
  | vkResetFences (fence : Handle)
  | vkResetCommandBuffer (command : Handle)
  | vkBeginCommandBuffer (command : Handle)
  | vkCmdBeginRenderPass (framebuffer : Option Handle) (renderArea : VkExtent2D)
  | vkCmdBindPipeline (pipeline : Handle)
  | vkCmdSetViewport (width height : Nat)
  | vkCmdSetScissor (extent : VkExtent2D)
  | vkCmdBindVertexBuffers (buffer : Handle)
  | vkCmdBindIndexBuffer (buffer : Handle)
  | vkCmdDrawIndexed (indexCount instanceCount : Nat)
  | vkCmdEndRenderPass
  | vkEndCommandBuffer (command : Handle)
  | vkQueueSubmit (queue fence : Handle)
  | vkQueuePresentKHR (queue swapchain : Handle) (imageIndex : Nat)
deriving DecidableEq, Repr

/-- The call resets a command buffer. -/
def Call.isCommandBufferReset : Call → Bool
  | .vkResetCommandBuffer _ => true
  | _ => false

/-- The call records into a command buffer (begin, any `vkCmd*`, end). -/
def Call.isRecording : Call → Bool
  | .vkBeginCommandBuffer _ => true
  | .vkCmdBeginRenderPass _ _ => true
  | .vkCmdBindPipeline _ => true
  | .vkCmdSetViewport _ _ => true
  | .vkCmdSetScissor _ => true
  | .vkCmdBindVertexBuffers _ => true
  | .vkCmdBindIndexBuffer _ => true
  | .vkCmdDrawIndexed _ _ => true
  | .vkCmdEndRenderPass => true
  | .vkEndCommandBuffer _ => true
  | _ => false

/-- The call submits work to a queue. -/
def Call.isSubmit : Call → Bool
  | .vkQueueSubmit _ _ => true
  | _ => false

/-- The call presents an image. -/
def Call.isPresent : Call → Bool
  | .vkQueuePresentKHR _ _ _ => true
  | _ => false

/-- The call resets a fence. -/
def Call.isFenceReset : Call → Bool
  | .vkResetFences _ => true
  | _ => false

/-- The call creates a swapchain. -/
def Call.isSwapchainCreate : Call → Bool
  | .vkCreateSwapchainKHR _ => true
  | _ => false

/-- The call creates an image view. -/
def Call.isImageViewCreate : Call → Bool
  | .vkCreateImageView _ => true
  | _ => false

/-- The call creates a framebuffer. -/
def Call.isFramebufferCreate : Call → Bool
  | .vkCreateFramebuffer _ _ _ => true
  | _ => false

/-- The call belongs to swapchain recreation: the device wait, the surface queries
and the creation of swapchain, image views and framebuffers. -/
def Call.isSwapchainSetup : Call → Bool
  | .vkDeviceWaitIdle => true
  | .vkGetPhysicalDeviceSurfaceFormatsKHR => true
  | .vkGetPhysicalDeviceSurfacePresentModesKHR => true
  | .vkGetPhysicalDeviceSurfaceCapabilitiesKHR => true
  | .vkCreateSwapchainKHR _ => true
  | .vkGetSwapchainImagesKHR => true
  | .vkCreateImageView _ => true
  | .vkCreateFramebuffer _ _ _ => true
  | _ => false

/-- The members of `VulkanRenderer` that the swapchain and frame-loop code reads or
writes. `models` is listed in the registry's iteration order. -/
structure VulkanRenderer where
  graphicsQueueIndex : Nat
  presentQueueIndex : Nat
  graphicsQueue : Handle
  presentQueue : Handle
  swapchain : Handle
  imageFormat : VkFormat
  extent : VkExtent2D
  queuedFrames : List Handle
  queuedFrameViews : List Handle
  frameBuffer : List Handle
  renderPass : Handle
  pipeline : Handle
  command : Handle
  inFlightFence : Handle
  imageMutex : Handle
  renderMutex : Handle
  currentFrame : Nat
  models : List ObjModel
deriving DecidableEq, Repr

/-- The replies of the Vulkan driver during one invocation of `DrawFrame` (or of one
of the members it calls). Each call is made at most once per invocation, except the
per-index creation calls, whose replies are indexed by the loop variable.
`surfaceFormats_ne`: Vulkan reports at least one format pair for a surface, which is
also what `hasAValidSwapChain` checked when the adapter was chosen. -/
structure Driver where
  acquireNextImage : VkResult
  imageIndex : Nat
  deviceWaitIdle : VkResult
  surfaceFormats : List VkSurfaceFormatKHR
  surfaceFormats_ne : surfaceFormats ≠ []
  presentModes : List VkPresentModeKHR
  capabilities : VkSurfaceCapabilitiesKHR
  createSwapchain : VkResult
  newSwapchain : Handle
  swapchainImageCount : Nat
  getSwapchainImages : VkResult
  swapchainImage : Nat → Handle
  createImageView : Nat → VkResult
  newImageView : Nat → Handle
  createFramebuffer : Nat → VkResult
  newFramebuffer : Nat → Handle
  beginCommandBuffer : VkResult
  endCommandBuffer : VkResult
  queueSubmit : VkResult
  queuePresent : VkResult

/-- What a member function leaves behind: its return value, the renderer state and
the device calls it issued, in order. -/
structure Outcome where
  ret : Bool
  state : VulkanRenderer
  calls : List Call

/-- Modelled from the spec: the container `Vector` is declared outside
`vulkan_renderer.cc`. `v.Resize(n); v.OverrideCount(n)` is taken by its name and by
the data model of the specification (ordered sequences with a length): afterwards
`Count()` is `n`, the elements kept are unchanged and new slots hold the null handle. -/
def resizeAndOverrideCount (v : List Handle) (n : Nat) : List Handle :=
  (v ++ List.replicate n 0).take n

/-! ## Swapchain manager (lines 350-468 and 499-502) -/

/-- The `VkSwapchainCreateInfoKHR` of lines 391-412. -/
def swapchainCreateInfo (d : Driver) (s : VulkanRenderer) : VkSwapchainCreateInfoKHR :=
  let surfaceFormat := swapChainSurfaceFormat d.surfaceFormats d.surfaceFormats_ne
  let surfaceExtent := swapChanExtent d.capabilities
  { minImageCount := (d.capabilities.minImageCount + 1) % 2 ^ 32,
    imageFormat := surfaceFormat.format,
    imageColorSpace := surfaceFormat.colorSpace,
    imageExtent := surfaceExtent,
    imageSharingMode :=
      if s.graphicsQueueIndex = s.presentQueueIndex then VK_SHARING_MODE_EXCLUSIVE
      else VK_SHARING_MODE_CONCURRENT,
    queueFamilyIndexCount := if s.graphicsQueueIndex = s.presentQueueIndex then 0 else 2,
    pQueueFamilyIndices :=
      if s.graphicsQueueIndex = s.presentQueueIndex then []
      else [s.presentQueueIndex, s.graphicsQueueIndex],
    preTransform := d.capabilities.currentTransform,
    presentMode := swapChainPresentMode d.presentModes }

/-- Member `CreateSwapChain` (lines 350-426). On success of `vkCreateSwapchainKHR` it
stores the new swapchain, format and extent and resizes `queuedFrames` to the image
count the driver reports; it touches neither `queuedFrameViews` nor `frameBuffer`. -/
def CreateSwapChain (d : Driver) (s : VulkanRenderer) : Outcome :=
  let queries : List Call :=
    [.vkGetPhysicalDeviceSurfaceFormatsKHR, .vkGetPhysicalDeviceSurfaceFormatsKHR,
     .vkGetPhysicalDeviceSurfacePresentModesKHR, .vkGetPhysicalDeviceSurfacePresentModesKHR,
     .vkGetPhysicalDeviceSurfaceCapabilitiesKHR]
  let surfaceFormat := swapChainSurfaceFormat d.surfaceFormats d.surfaceFormats_ne
  let surfaceExtent := swapChanExtent d.capabilities
  let info := swapchainCreateInfo d s
  if d.createSwapchain ≠ VK_SUCCESS then
    ⟨false, s, queries ++ [.vkCreateSwapchainKHR info]⟩
  else
    let imageCount := d.swapchainImageCount
    let resized := resizeAndOverrideCount s.queuedFrames imageCount
    let filled :=
      if d.getSwapchainImages = VK_SUCCESS then (List.range imageCount).map d.swapchainImage
      else resized
    ⟨d.getSwapchainImages == VK_SUCCESS,
     { s with swapchain := d.newSwapchain, imageFormat := surfaceFormat.format,
              extent := surfaceExtent, queuedFrames := filled },
     queries ++ [.vkCreateSwapchainKHR info, .vkGetSwapchainImagesKHR,
                 .vkGetSwapchainImagesKHR]⟩

/-- The loop of `SetupImageViews` (lines 432-445) over the remaining indices: one
`vkCreateImageView` per index, leaving at the first failure. -/
def SetupImageViewsLoop (d : Driver) (images : List Handle) :
    List Nat → List Handle → List Call → Bool × List Handle × List Call
  | [], views, calls => (true, views, calls)
  | i :: rest, views, calls =>
    if d.createImageView i ≠ VK_SUCCESS then
      (false, views, calls ++ [.vkCreateImageView (images.getD i 0)])
    else
      SetupImageViewsLoop d images rest (views.set i (d.newImageView i))
        (calls ++ [.vkCreateImageView (images.getD i 0)])

/-- Member `SetupImageViews` (lines 428-447). -/
def SetupImageViews (d : Driver) (s : VulkanRenderer) : Outcome :=
  let views := resizeAndOverrideCount s.queuedFrameViews s.queuedFrames.length
  let r := SetupImageViewsLoop d s.queuedFrames (List.range s.queuedFrames.length) views []
  ⟨r.1, { s with queuedFrameViews := r.2.1 }, r.2.2⟩

/-- The loop of `CreateFrameBuffers` (lines 453-466) over the remaining indices. -/
def CreateFrameBuffersLoop (d : Driver) (views : List Handle) (extent : VkExtent2D) :
    List Nat → List Handle → List Call → Bool × List Handle × List Call
  | [], buffers, calls => (true, buffers, calls)
  | i :: rest, buffers, calls =>
    if d.createFramebuffer i ≠ VK_SUCCESS then
      (false, buffers,
        calls ++ [.vkCreateFramebuffer (views.getD i 0) extent.width extent.height])
    else
      CreateFrameBuffersLoop d views extent rest (buffers.set i (d.newFramebuffer i))
        (calls ++ [.vkCreateFramebuffer (views.getD i 0) extent.width extent.height])

/-- Member `CreateFrameBuffers` (lines 449-468). -/
def CreateFrameBuffers (d : Driver) (s : VulkanRenderer) : Outcome :=
  let buffers := resizeAndOverrideCount s.frameBuffer s.queuedFrameViews.length
  let r := CreateFrameBuffersLoop d s.queuedFrameViews s.extent
    (List.range s.queuedFrameViews.length) buffers []
  ⟨r.1, { s with frameBuffer := r.2.1 }, r.2.2⟩

/-- Member `RecreateSwapChain` (lines 499-502):
`vkDeviceWaitIdle(device) && CreateSwapChain() && SetupImageViews() && CreateFrameBuffers()`.
The `VkResult` of `vkDeviceWaitIdle` is used as a boolean, so `VK_SUCCESS` (zero) is
false and ends the chain, and any non-zero result lets the chain go on. -/
def RecreateSwapChain (d : Driver) (s : VulkanRenderer) : Outcome :=
  if d.deviceWaitIdle = 0 then ⟨false, s, [.vkDeviceWaitIdle]⟩
  else
    let r1 := CreateSwapChain d s
    if r1.ret = false then ⟨false, r1.state, [.vkDeviceWaitIdle] ++ r1.calls⟩
    else
      let r2 := SetupImageViews d r1.state
      if r2.ret = false then ⟨false, r2.state, [.vkDeviceWaitIdle] ++ r1.calls ++ r2.calls⟩
      else
        let r3 := CreateFrameBuffers d r2.state
        ⟨r3.ret, r3.state, [.vkDeviceWaitIdle] ++ r1.calls ++ r2.calls ++ r3.calls⟩

/-! ## Frame loop (lines 130-182 and 653-688) -/

/-- The three commands recorded for one model (lines 680-682). -/
def drawModel (model : ObjModel) : List Call :=
  [.vkCmdBindVertexBuffers model.vertexBuffer, .vkCmdBindIndexBuffer model.indexBuffer,
   .vkCmdDrawIndexed model.indexCount 1]

/-- The number of low bits of `n` that a 24-bit significand cannot hold: the least `e`
with `n / 2 ^ e < 2 ^ 24` (the first argument bounds the recursion). -/
def droppedBits : Nat → Nat → Nat
  | 0, _ => 0
  | fuel + 1, n => if n < 2 ^ 24 then 0 else droppedBits fuel (n / 2) + 1

/-- The cast `(float)n` of line 672 for an unsigned integer `n`: the value of the
nearest IEEE binary32 number, ties to even, which is again an integer. -/
def castToFloat (n : Nat) : Nat :=
  let e := droppedBits n n
  let q := n / 2 ^ e
  let r := n % 2 ^ e
  if 2 * r > 2 ^ e ∨ (2 * r = 2 ^ e ∧ q % 2 = 1) then (q + 1) * 2 ^ e else q * 2 ^ e

/-- Member `RecordCommandBuffer` (lines 653-688): the return value and the calls
issued. `frameBuffer[imageIndex]` is logged as an optional handle; the viewport is
logged with the float values of its width and height. -/
def RecordCommandBuffer (d : Driver) (s : VulkanRenderer) (imageIndex : Nat) :
    Bool × List Call :=
  if d.beginCommandBuffer ≠ VK_SUCCESS then (false, [.vkBeginCommandBuffer s.command])
  else
    (d.endCommandBuffer == VK_SUCCESS,
     [.vkBeginCommandBuffer s.command,
      .vkCmdBeginRenderPass s.frameBuffer[imageIndex]? s.extent,
      .vkCmdBindPipeline s.pipeline,
      .vkCmdSetViewport (castToFloat s.extent.width) (castToFloat s.extent.height),
      .vkCmdSetScissor s.extent]
     ++ (s.models.map drawModel).flatten
     ++ [.vkCmdEndRenderPass, .vkEndCommandBuffer s.command])

/-- The update `currentFrame = (currentFrame + 1) % 3` of line 177. The member is
declared outside this file; it is taken as a `Uint32` like the file's other counters. -/
def nextFrame (currentFrame : Nat) : Nat :=
  (currentFrame + 1) % 2 ^ 32 % 3

/-- Member `DrawFrame` (lines 130-182). In the second switch the cases
`VK_ERROR_OUT_OF_DATE_KHR` and `VK_SUBOPTIMAL_KHR` call `CreateSwapChain()` and fall
through into the `VK_SUCCESS` case. -/
def DrawFrame (d : Driver) (s : VulkanRenderer) : Outcome :=
  let c0 : List Call :=
    [.vkWaitForFences s.inFlightFence, .vkAcquireNextImageKHR s.swapchain s.imageMutex]
  if d.acquireNextImage = VK_SUBOPTIMAL_KHR then
    let r := RecreateSwapChain d s
    ⟨true, r.state, c0 ++ r.calls⟩
  else if d.acquireNextImage = VK_SUCCESS then
    let c1 := c0 ++ [.vkResetFences s.inFlightFence, .vkResetCommandBuffer s.command]
    let recorded := RecordCommandBuffer d s d.imageIndex
    if recorded.1 = false then ⟨false, s, c1 ++ recorded.2⟩
    else
      let c2 := c1 ++ recorded.2 ++ [.vkQueueSubmit s.graphicsQueue s.inFlightFence]
      if d.queueSubmit ≠ VK_SUCCESS then ⟨false, s, c2⟩
      else
        let c3 := c2 ++ [.vkQueuePresentKHR s.presentQueue s.swapchain d.imageIndex]
        if d.queuePresent = VK_ERROR_OUT_OF_DATE_KHR ∨ d.queuePresent = VK_SUBOPTIMAL_KHR then
          let r := CreateSwapChain d s
          ⟨true, { r.state with currentFrame := nextFrame r.state.currentFrame },
            c3 ++ r.calls⟩
        else if d.queuePresent = VK_SUCCESS then
          ⟨true, { s with currentFrame := nextFrame s.currentFrame }, c3⟩
        else ⟨false, s, c3⟩
  else ⟨false, s, c0⟩

/-- The invariant of the swapchain state: as many views and framebuffers as images. -/
def lengthsAgree (s : VulkanRenderer) : Prop :=
  s.queuedFrames.length = s.queuedFrameViews.length
  ∧ s.queuedFrameViews.length = s.frameBuffer.length

instance (s : VulkanRenderer) : Decidable (lengthsAgree s) := by
  unfold lengthsAgree; infer_instance

/-- A renderer after setup with three swapchain images, three views and three
framebuffers, one registered model and the frame counter at 0. -/
def rendererWithThreeImages : VulkanRenderer :=
  { graphicsQueueIndex := 0, presentQueueIndex := 0, graphicsQueue := 11, presentQueue := 11,
    swapchain := 20, imageFormat := 36, extent := ⟨1600, 900⟩,
    queuedFrames := [31, 32, 33], queuedFrameViews := [41, 42, 43],
    frameBuffer := [51, 52, 53], renderPass := 60, pipeline := 61, command := 62,
    inFlightFence := 70, imageMutex := 71, renderMutex := 72, currentFrame := 0,
    models := [⟨80, 81, 3⟩] }

/-- Driver replies in which every call succeeds; a swapchain created during the
invocation has two images. -/
def driverAllSuccess : Driver :=
  { acquireNextImage := VK_SUCCESS, imageIndex := 0, deviceWaitIdle := VK_SUCCESS,
    surfaceFormats := [⟨36, 0⟩], surfaceFormats_ne := by simp,
    presentModes := [2], capabilities := ⟨2, ⟨800, 600⟩, 1⟩,
    createSwapchain := VK_SUCCESS, newSwapchain := 21, swapchainImageCount := 2,
    getSwapchainImages := VK_SUCCESS, swapchainImage := fun i => 100 + i,
    createImageView := fun _ => VK_SUCCESS, newImageView := fun i => 200 + i,
    createFramebuffer := fun _ => VK_SUCCESS, newFramebuffer := fun i => 300 + i,
    beginCommandBuffer := VK_SUCCESS, endCommandBuffer := VK_SUCCESS,
    queueSubmit := VK_SUCCESS, queuePresent := VK_SUCCESS }

/-- As `driverAllSuccess`, but image acquisition reports SUBOPTIMAL. -/
def driverAcquireSuboptimal : Driver :=
  { driverAllSuccess with acquireNextImage := VK_SUBOPTIMAL_KHR }

/-- Acquisition reports SUBOPTIMAL and `vkDeviceWaitIdle` reports a lost device; the
creation calls succeed. -/
def driverSuboptimalWaitIdleError : Driver :=
  { driverAllSuccess with acquireNextImage := VK_SUBOPTIMAL_KHR,
                          deviceWaitIdle := VK_ERROR_DEVICE_LOST }

/-- As `driverAllSuccess`, but presenting reports OUT_OF_DATE. -/
def driverPresentOutOfDate : Driver :=
  { driverAllSuccess with queuePresent := VK_ERROR_OUT_OF_DATE_KHR }

/-! ## Sequences of frames and further driver replies -/

def VK_ERROR_OUT_OF_HOST_MEMORY : VkResult := -1

/-- The call is an indexed draw. -/
def Call.isDrawIndexed : Call → Bool
  | .vkCmdDrawIndexed _ _ => true
  | _ => false

/-- The device calls of a run of `DrawFrame` invocations, one per entry of `drivers`
(the replies of the driver during that invocation), each starting from the state the
previous one left: the per-frame caller of the public operation `DrawFrame`. -/
def DrawFrames : List Driver → VulkanRenderer → List Call
  | [], _ => []
  | d :: rest, s => (DrawFrame d s).calls ++ DrawFrames rest (DrawFrame d s).state

/-- As `driverAllSuccess`, but image acquisition reports OUT_OF_DATE. -/
def driverAcquireOutOfDate : Driver :=
  { driverAllSuccess with acquireNextImage := VK_ERROR_OUT_OF_DATE_KHR }

/-- As `driverAllSuccess`, but `vkBeginCommandBuffer` fails. -/
def driverBeginCommandBufferFails : Driver :=
  { driverAllSuccess with beginCommandBuffer := VK_ERROR_OUT_OF_HOST_MEMORY }

/-- As `driverAllSuccess`, but `vkQueueSubmit` fails. -/
def driverQueueSubmitFails : Driver :=
  { driverAllSuccess with queueSubmit := VK_ERROR_DEVICE_LOST }

/-! ## Resource factory: CreateBuffer (lines 543-590) -/

structure VkMemoryRequirements where
  size : Nat
  memoryTypeBits : Nat
deriving DecidableEq, Repr

/-- The `vk*` calls issued by `CreateBuffer`. -/
inductive BufferCall where
  | vkCreateBuffer (size usage : Nat)
  | vkGetBufferMemoryRequirements (buffer : Handle)
  | vkGetPhysicalDeviceMemoryProperties
  | vkAllocateMemory (allocationSize memoryTypeIndex : Nat)
  | vkBindBufferMemory (buffer memory : Handle)
deriving DecidableEq, Repr

/-- The call allocates device memory. -/
def BufferCall.isAllocate : BufferCall → Bool
  | .vkAllocateMemory _ _ => true
  | _ => false

/-- The replies of the driver during one invocation of `CreateBuffer`. `memoryTypes`
lists `memoryTypes[i].propertyFlags` for `i < memoryTypeCount`; Vulkan reports at most
32 memory types, so `1 << i` stays within 32 bits. -/
structure BufferDriver where
  createBuffer : VkResult
  newBuffer : Handle
  memRequirements : VkMemoryRequirements
  memoryTypes : List Nat
  allocateMemory : VkResult
  newMemory : Handle
  bindBufferMemory : VkResult
deriving DecidableEq, Repr

/-- The two tests of lines 566-568 for index `i` with flags `propertyFlags`. -/
def memoryTypeMatches (memoryTypeBits properties i propertyFlags : Nat) : Bool :=
  (memoryTypeBits &&& (1 <<< i) != 0) && (propertyFlags &&& properties == properties)

/-- The loop of lines 564-572 from index `i` over the remaining memory types; `index`
starts at 0 and is assigned, with a `break`, at the first index passing both tests. -/
def memoryTypeIndexLoop (memoryTypeBits properties : Nat) : Nat → List Nat → Nat
  | _, [] => 0
  | i, propertyFlags :: rest =>
    if memoryTypeMatches memoryTypeBits properties i propertyFlags then i
    else memoryTypeIndexLoop memoryTypeBits properties (i + 1) rest

/-- The value of the local `index` after the loop of lines 564-572. -/
def memoryTypeIndex (memoryTypeBits properties : Nat) (memoryTypes : List Nat) : Nat :=
  memoryTypeIndexLoop memoryTypeBits properties 0 memoryTypes

/-- What `CreateBuffer` leaves behind: the returned handle (0 is the null handle), the
out-parameter `bufferMemory` and the device calls issued. -/
structure BufferOutcome where
  buffer : Handle
  bufferMemory : Handle
  calls : List BufferCall
deriving DecidableEq, Repr

/-- Member `CreateBuffer` (lines 543-590), with the prior value of the out-parameter. -/
def CreateBuffer (d : BufferDriver) (size usage properties : Nat) (bufferMemory : Handle) :
    BufferOutcome :=
  if d.createBuffer ≠ VK_SUCCESS then ⟨0, bufferMemory, [.vkCreateBuffer size usage]⟩
  else
    let c1 : List BufferCall :=
      [.vkCreateBuffer size usage, .vkGetBufferMemoryRequirements d.newBuffer,
       .vkGetPhysicalDeviceMemoryProperties]
    let index := memoryTypeIndex d.memRequirements.memoryTypeBits properties d.memoryTypes
    if index = 0 then ⟨0, bufferMemory, c1⟩
    else
      let c2 := c1 ++ [.vkAllocateMemory d.memRequirements.size index]
      if d.allocateMemory ≠ VK_SUCCESS then ⟨0, bufferMemory, c2⟩
      else
        let c3 := c2 ++ [.vkBindBufferMemory d.newBuffer d.newMemory]
        if d.bindBufferMemory ≠ VK_SUCCESS then ⟨0, d.newMemory, c3⟩
        else ⟨d.newBuffer, d.newMemory, c3⟩

/-- Index `i` of the table is a match in the words of the specification: bit `i` of the
requirements mask is set and the flags of type `i` contain the requested ones. -/
def specMemoryTypeMatch (memoryTypeBits properties : Nat) (memoryTypes : List Nat)
    (i : Nat) : Prop :=
  memoryTypeBits.testBit i = true ∧ ∃ flags, memoryTypes[i]? = some flags
    ∧ flags &&& properties = properties

instance (memoryTypeBits properties : Nat) (memoryTypes : List Nat) (i : Nat) :
    Decidable (specMemoryTypeMatch memoryTypeBits properties memoryTypes i) := by
  unfold specMemoryTypeMatch
  cases h : memoryTypes[i]? with
  | none => exact isFalse (by simp)
  | some flags =>
    exact decidable_of_iff (memoryTypeBits.testBit i = true ∧ flags &&& properties = properties)
      (by simp)

/-- Driver replies for `CreateBuffer` in which every call succeeds, the buffer accepts
memory types 0 and 1, type 0 is device-local (flag 1) and type 1 is host-visible and
host-coherent (flags 2 and 4). -/
def bufferDriverTwoTypes : BufferDriver :=
  { createBuffer := VK_SUCCESS, newBuffer := 500,
    memRequirements := ⟨256, 3⟩, memoryTypes := [1, 6],
    allocateMemory := VK_SUCCESS, newMemory := 600, bindBufferMemory := VK_SUCCESS }

/-- As `bufferDriverTwoTypes`, but both memory types are device-local (flag 1). -/
def bufferDriverBothDeviceLocal : BufferDriver :=
  { bufferDriverTwoTypes with memoryTypes := [1, 1] }

/-- As `driverAllSuccess`, but presenting reports SUBOPTIMAL. -/
def driverPresentSuboptimal : Driver :=
  { driverAllSuccess with queuePresent := VK_SUBOPTIMAL_KHR }

/-- As `rendererWithThreeImages`, with an extent whose width is 2^24 + 1. -/
def rendererWithWideExtent : VulkanRenderer :=
  { rendererWithThreeImages with extent := ⟨16777217, 900⟩ }

/-! ## Theorems -/

/-- Helper: when the loop returns from inside, the entry it returns is the first
preferred one. -/
theorem swapChainSurfaceFormatLoop_some (formats : List VkSurfaceFormatKHR)
    (r : VkSurfaceFormatKHR) (h : swapChainSurfaceFormatLoop formats = some r) :
    ∃ i : Nat, formats[i]? = some r ∧ isPreferredFormat r
      ∧ ∀ (j : Nat) (g : VkSurfaceFormatKHR), j < i → formats[j]? = some g → ¬ isPreferredFormat g := by
  induction formats with
  | nil => simp [swapChainSurfaceFormatLoop] at h
  | cons f rest ih =>
    unfold swapChainSurfaceFormatLoop at h
    by_cases hf : isPreferredFormat f
    · simp only [hf, if_true, Option.some.injEq] at h
      subst h
      exact ⟨0, by simp, hf, by intro j g hj; omega⟩
    · simp only [hf, if_false] at h
      obtain ⟨i, hi, hp, hfirst⟩ := ih h
      refine ⟨i + 1, by simpa using hi, hp, ?_⟩
      intro j g hj hg
      cases j with
      | zero => simp at hg; subst hg; exact hf
      | succ k => exact hfirst k g (by omega) (by simpa using hg)

/-- Helper: the loop falls through exactly when no entry is preferred. -/
theorem swapChainSurfaceFormatLoop_none (formats : List VkSurfaceFormatKHR) :
    swapChainSurfaceFormatLoop formats = none ↔ ∀ f ∈ formats, ¬ isPreferredFormat f := by
  induction formats with
  | nil => simp [swapChainSurfaceFormatLoop]
  | cons f rest ih =>
    unfold swapChainSurfaceFormatLoop
    by_cases hf : isPreferredFormat f
    · simp [hf]
    · simp [hf, ih]

/-- C1: for every non-empty list of supported surface formats, the format chosen by
CreateSwapChain is the first entry that is B8G8R8_SRGB with SRGB_NONLINEAR when such
an entry exists, and the entry at index 0 otherwise; the two scenarios of the
specification are instances. -/
theorem swapChainSurfaceFormat_first_preferred_or_first
    (formats : List VkSurfaceFormatKHR) (h : formats ≠ []) :
    ((∃ f ∈ formats, isPreferredFormat f) →
      ∃ i : Nat, formats[i]? = some (swapChainSurfaceFormat formats h)
        ∧ isPreferredFormat (swapChainSurfaceFormat formats h)
        ∧ ∀ (j : Nat) (g : VkSurfaceFormatKHR), j < i → formats[j]? = some g → ¬ isPreferredFormat g)
    ∧ ((∀ f ∈ formats, ¬ isPreferredFormat f) →
      formats[0]? = some (swapChainSurfaceFormat formats h))
    ∧ swapChainSurfaceFormat
        [⟨VK_FORMAT_R8G8B8_UNORM, VK_COLOR_SPACE_EXTENDED_SRGB_LINEAR_EXT⟩,
         ⟨VK_FORMAT_B8G8R8_SRGB, VK_COLOR_SPACE_SRGB_NONLINEAR_KHR⟩] (by simp)
        = ⟨VK_FORMAT_B8G8R8_SRGB, VK_COLOR_SPACE_SRGB_NONLINEAR_KHR⟩
    ∧ swapChainSurfaceFormat
        [⟨VK_FORMAT_R8G8B8_UNORM, VK_COLOR_SPACE_EXTENDED_SRGB_LINEAR_EXT⟩] (by simp)
        = ⟨VK_FORMAT_R8G8B8_UNORM, VK_COLOR_SPACE_EXTENDED_SRGB_LINEAR_EXT⟩ := by
  refine ⟨?_, ?_, by decide, by decide⟩
  · intro hex
    cases hl : swapChainSurfaceFormatLoop formats with
    | none =>
      obtain ⟨f, hf, hp⟩ := hex
      exact absurd hp ((swapChainSurfaceFormatLoop_none formats).1 hl f hf)
    | some r =>
      have hr : swapChainSurfaceFormat formats h = r := by
        simp [swapChainSurfaceFormat, hl]
      rw [hr]
      exact swapChainSurfaceFormatLoop_some formats r hl
  · intro hno
    have hl := (swapChainSurfaceFormatLoop_none formats).2 hno
    have hr : swapChainSurfaceFormat formats h = formats.head h := by
      simp [swapChainSurfaceFormat, hl]
    rw [hr]
    cases formats with
    | nil => exact absurd rfl h
    | cons f rest => simp

/-- Witness for C1 on a two-entry list whose second entry is the preferred one. -/
theorem swapChainSurfaceFormat_first_preferred_or_first_witness :
    ([⟨23, 1000104002⟩, ⟨36, 0⟩] : List VkSurfaceFormatKHR) ≠ []
    ∧ ∃ i : Nat, ([⟨23, 1000104002⟩, ⟨36, 0⟩] : List VkSurfaceFormatKHR)[i]?
          = some (swapChainSurfaceFormat [⟨23, 1000104002⟩, ⟨36, 0⟩] (by simp))
        ∧ isPreferredFormat (swapChainSurfaceFormat [⟨23, 1000104002⟩, ⟨36, 0⟩] (by simp))
        ∧ ∀ (j : Nat) (g : VkSurfaceFormatKHR), j < i →
            ([⟨23, 1000104002⟩, ⟨36, 0⟩] : List VkSurfaceFormatKHR)[j]? = some g →
            ¬ isPreferredFormat g :=
  ⟨by simp,
   (swapChainSurfaceFormat_first_preferred_or_first [⟨23, 1000104002⟩, ⟨36, 0⟩] (by simp)).1
     ⟨⟨36, 0⟩, by simp, by decide⟩⟩

/-- C2: for every list of supported present modes, the mode chosen by
CreateSwapChain is MAILBOX if MAILBOX occurs anywhere in the list and FIFO
otherwise; [FIFO, MAILBOX] gives MAILBOX and [FIFO] gives FIFO. -/
theorem swapChainPresentMode_mailbox_or_fifo (modes : List VkPresentModeKHR) :
    swapChainPresentMode modes
      = (if VK_PRESENT_MODE_MAILBOX_KHR ∈ modes then VK_PRESENT_MODE_MAILBOX_KHR
         else VK_PRESENT_MODE_FIFO_KHR)
    ∧ swapChainPresentMode [VK_PRESENT_MODE_FIFO_KHR, VK_PRESENT_MODE_MAILBOX_KHR]
        = VK_PRESENT_MODE_MAILBOX_KHR
    ∧ swapChainPresentMode [VK_PRESENT_MODE_FIFO_KHR] = VK_PRESENT_MODE_FIFO_KHR := by
  refine ⟨?_, by decide, by decide⟩
  induction modes with
  | nil => simp [swapChainPresentMode]
  | cons m rest ih =>
    unfold swapChainPresentMode
    by_cases hm : m = VK_PRESENT_MODE_MAILBOX_KHR
    · simp [hm]
    · have hm2 : ¬ VK_PRESENT_MODE_MAILBOX_KHR = m := fun e => hm e.symm
      simp [hm, hm2, ih]

/-- Helper: what the loop of `ChoosePhysicalDevice` does: it returns true with the first
adapter, at position `start + k`, that passes the checks of lines 270-271 made with
that position as the queue family index, and false when no adapter passes them. -/
theorem ChoosePhysicalDeviceLoop_first (devices : List PhysicalDevice) :
    ∀ (start : Nat) (prior : Option PhysicalDevice),
      (∀ (k : Nat) (dev : PhysicalDevice), devices[k]? = some dev →
          passesDeviceChecks dev (start + k) = true →
          (∀ (j : Nat) (g : PhysicalDevice), j < k → devices[j]? = some g →
              passesDeviceChecks g (start + j) = false) →
          ChoosePhysicalDeviceLoop start devices prior = (true, some dev))
      ∧ ((∀ (k : Nat) (dev : PhysicalDevice), devices[k]? = some dev →
              passesDeviceChecks dev (start + k) = false) →
          (ChoosePhysicalDeviceLoop start devices prior).1 = false) := by
  induction devices with
  | nil =>
    intro start prior
    exact ⟨by intro k dev hk; simp at hk, fun _ => rfl⟩
  | cons d rest ih =>
    intro start prior
    constructor
    · intro k dev hk hp hfirst
      cases k with
      | zero =>
        simp at hk; subst hk
        unfold ChoosePhysicalDeviceLoop
        rw [if_pos (by simpa using hp)]
      | succ m =>
        have h0 : passesDeviceChecks d start = false := by
          simpa using hfirst 0 d (by omega) (by simp)
        unfold ChoosePhysicalDeviceLoop
        rw [if_neg (by simp [h0])]
        have e : start + (m + 1) = start + 1 + m := by omega
        refine (ih (start + 1) (some d)).1 m dev (by simpa using hk) (by rw [← e]; exact hp) ?_
        intro j g hj hg
        have e2 : start + 1 + j = start + (j + 1) := by omega
        rw [e2]
        exact hfirst (j + 1) g (by omega) (by simpa using hg)
    · intro hall
      have h0 : passesDeviceChecks d start = false := by
        simpa using hall 0 d (by simp)
      unfold ChoosePhysicalDeviceLoop
      rw [if_neg (by simp [h0])]
      refine (ih (start + 1) (some d)).2 ?_
      intro k dev hk
      have e2 : start + 1 + k = start + (k + 1) := by omega
      rw [e2]
      exact hall (k + 1) dev (by simpa using hk)

/-- C3: on the adapter list [integratedAdapter, discreteAdapter] the second adapter
meets every predicate of the selection rule (it is a discrete GPU and its family 0
can present) and the first does not, yet ChoosePhysicalDevice returns false: the
present test of line 270 is made on the family whose index is the adapter's position
in the enumeration (family 1 of the second adapter), not on the adapter's families. -/
theorem ChoosePhysicalDevice_rejects_discreteAdapter :
    ¬ specSelectionRule integratedAdapter
    ∧ specSelectionRule discreteAdapter
    ∧ canPresent discreteAdapter 1 = false
    ∧ ChoosePhysicalDevice [integratedAdapter, discreteAdapter] none
        = (false, some discreteAdapter) := by
  refine ⟨?_, ?_, by decide, by decide⟩
  · intro h
    exact absurd h.1 (by decide)
  · unfold specSelectionRule
    refine ⟨by decide, by decide, ⟨⟨7, true⟩, by decide, rfl⟩, ?_, by decide, by decide⟩
    simp [discreteAdapter, VK_KHR_SWAPCHAIN_EXTENSION_NAME]

/-- Helper: a family that is both graphics- and present-capable stops the loop at the
first such family, whatever was accumulated before. -/
theorem SuitableQueuesFoundLoop_both (families : List QueueFamily) :
    ∀ (i : Nat) (gf pf : Bool) (gi pi : Nat),
      (∃ f ∈ families, hasGraphicsBit f = true ∧ f.surfaceSupport = true) →
      ∃ (k : Nat) (f : QueueFamily), families[k]? = some f
        ∧ hasGraphicsBit f = true ∧ f.surfaceSupport = true
        ∧ (∀ (j : Nat) (g : QueueFamily), j < k → families[j]? = some g →
            ¬ (hasGraphicsBit g = true ∧ g.surfaceSupport = true))
        ∧ SuitableQueuesFoundLoop i families gf pf gi pi = ⟨true, i + k, i + k⟩ := by
  induction families with
  | nil => intro i gf pf gi pi h; simp at h
  | cons fam rest ih =>
    intro i gf pf gi pi h
    by_cases hb : hasGraphicsBit fam = true ∧ fam.surfaceSupport = true
    · refine ⟨0, fam, by simp, hb.1, hb.2, by intro j g hj; omega, ?_⟩
      simp [SuitableQueuesFoundLoop, hb.1, hb.2]
    · have hrest : ∃ f ∈ rest, hasGraphicsBit f = true ∧ f.surfaceSupport = true := by
        obtain ⟨f, hf, hp⟩ := h
        rcases List.mem_cons.1 hf with e | hmem
        · subst e; exact absurd hp hb
        · exact ⟨f, hmem, hp⟩
      have hstep : ∀ (gf2 pf2 : Bool) (gi2 pi2 : Nat),
          ∃ (k : Nat) (f : QueueFamily), (fam :: rest)[k]? = some f
            ∧ hasGraphicsBit f = true ∧ f.surfaceSupport = true
            ∧ (∀ (j : Nat) (g : QueueFamily), j < k → (fam :: rest)[j]? = some g →
                ¬ (hasGraphicsBit g = true ∧ g.surfaceSupport = true))
            ∧ SuitableQueuesFoundLoop (i + 1) rest gf2 pf2 gi2 pi2 = ⟨true, i + k, i + k⟩ := by
        intro gf2 pf2 gi2 pi2
        obtain ⟨k, f, hk, hg, hs, hfirst, hres⟩ := ih (i + 1) gf2 pf2 gi2 pi2 hrest
        refine ⟨k + 1, f, by simpa using hk, hg, hs, ?_, ?_⟩
        · intro j g hj hjg
          cases j with
          | zero => simp at hjg; subst hjg; exact hb
          | succ m => exact hfirst m g (by omega) (by simpa using hjg)
        · rw [hres]
          have e : i + 1 + k = i + (k + 1) := by omega
          rw [e]
      unfold SuitableQueuesFoundLoop
      by_cases hg : hasGraphicsBit fam = true
      · have hs : fam.surfaceSupport = false := by
          cases hsv : fam.surfaceSupport with
          | false => rfl
          | true => exact absurd ⟨hg, hsv⟩ hb
        simp only [hg, hs, Bool.and_false, Bool.false_eq_true, if_false, if_true]
        exact hstep true pf i pi
      · have hg2 : hasGraphicsBit fam = false := by simpa using hg
        by_cases hs : fam.surfaceSupport = true
        · simp only [hg2, hs, Bool.false_and, Bool.false_eq_true, if_false, if_true]
          exact hstep gf true gi i
        · have hs2 : fam.surfaceSupport = false := by simpa using hs
          simp only [hg2, hs2, Bool.false_and, Bool.false_eq_true, if_false]
          exact hstep gf pf gi pi

/-- Helper: an index that is valid in a list stays valid, with the same entry, when
more entries follow. -/
theorem getElem?_append_of_some {α : Type} (pre more : List α) (i : Nat) (a : α)
    (h : pre[i]? = some a) : (pre ++ more)[i]? = some a := by
  have hi : i < pre.length := by
    by_contra hc
    have : pre[i]? = none := List.getElem?_eq_none (by omega)
    rw [this] at h
    exact Option.noConfusion h
  rw [List.getElem?_append_left hi]
  exact h

/-- Helper: with no family that is both graphics- and present-capable, the loop runs
to the end; it reports whether each role was seen, and the two index members then
name a family seen for that role. `pre` is the part of the list already walked. -/
theorem SuitableQueuesFoundLoop_split (families : List QueueFamily) :
    ∀ (pre : List QueueFamily) (gf pf : Bool) (gi pi : Nat),
      (∀ f ∈ families, ¬ (hasGraphicsBit f = true ∧ f.surfaceSupport = true)) →
      (gf = true → ∃ f, pre[gi]? = some f ∧ hasGraphicsBit f = true) →
      (pf = true → ∃ f, pre[pi]? = some f ∧ f.surfaceSupport = true) →
      (SuitableQueuesFoundLoop pre.length families gf pf gi pi).found
          = ((gf || families.any hasGraphicsBit)
              && (pf || families.any fun f => f.surfaceSupport))
      ∧ ((SuitableQueuesFoundLoop pre.length families gf pf gi pi).found = true →
          (∃ f, (pre ++ families)[(SuitableQueuesFoundLoop pre.length families
                  gf pf gi pi).graphicsQueueIndex]? = some f ∧ hasGraphicsBit f = true)
          ∧ (∃ f, (pre ++ families)[(SuitableQueuesFoundLoop pre.length families
                  gf pf gi pi).presentQueueIndex]? = some f ∧ f.surfaceSupport = true)) := by
  induction families with
  | nil =>
    intro pre gf pf gi pi _ hgi hpi
    simp only [SuitableQueuesFoundLoop, List.any_nil, Bool.or_false, List.append_nil,
      Bool.and_eq_true, true_and]
    intro h
    exact ⟨hgi h.1, hpi h.2⟩
  | cons fam rest ih =>
    intro pre gf pf gi pi hno hgi hpi
    have hb : ¬ (hasGraphicsBit fam = true ∧ fam.surfaceSupport = true) :=
      hno fam (List.mem_cons_self _ _)
    have hrest : ∀ f ∈ rest, ¬ (hasGraphicsBit f = true ∧ f.surfaceSupport = true) :=
      fun f hf => hno f (List.mem_cons_of_mem _ hf)
    have hlen : (pre ++ [fam]).length = pre.length + 1 := by simp
    have happ : pre ++ [fam] ++ rest = pre ++ fam :: rest := by simp
    have hlast : (pre ++ [fam])[pre.length]? = some fam := by simp
    unfold SuitableQueuesFoundLoop
    by_cases hg : hasGraphicsBit fam = true
    · have hs : fam.surfaceSupport = false := by
        cases hsv : fam.surfaceSupport with
        | false => rfl
        | true => exact absurd ⟨hg, hsv⟩ hb
      simp only [hg, hs, Bool.and_false, Bool.false_eq_true, if_false, if_true, List.any_cons,
        Bool.true_or, Bool.or_true, Bool.false_or]
      have h := ih (pre ++ [fam]) true pf pre.length pi hrest
        (fun _ => ⟨fam, hlast, hg⟩)
        (fun hp => by
          obtain ⟨f, hf, hfs⟩ := hpi hp
          exact ⟨f, getElem?_append_of_some pre [fam] pi f hf, hfs⟩)
      rw [hlen, happ] at h
      simpa using h
    · have hg2 : hasGraphicsBit fam = false := by simpa using hg
      by_cases hs : fam.surfaceSupport = true
      · simp only [hg2, hs, Bool.false_and, Bool.false_eq_true, if_false, if_true,
          List.any_cons, Bool.true_or, Bool.or_true, Bool.false_or]
        have h := ih (pre ++ [fam]) gf true gi pre.length hrest
          (fun hgf => by
            obtain ⟨f, hf, hfg⟩ := hgi hgf
            exact ⟨f, getElem?_append_of_some pre [fam] gi f hf, hfg⟩)
          (fun _ => ⟨fam, hlast, hs⟩)
        rw [hlen, happ] at h
        simpa using h
      · have hs2 : fam.surfaceSupport = false := by simpa using hs
        simp only [hg2, hs2, Bool.false_and, Bool.false_eq_true, if_false,
          List.any_cons, Bool.false_or]
        have h := ih (pre ++ [fam]) gf pf gi pi hrest
          (fun hgf => by
            obtain ⟨f, hf, hfg⟩ := hgi hgf
            exact ⟨f, getElem?_append_of_some pre [fam] gi f hf, hfg⟩)
          (fun hp => by
            obtain ⟨f, hf, hfs⟩ := hpi hp
            exact ⟨f, getElem?_append_of_some pre [fam] pi f hf, hfs⟩)
        rw [hlen, happ] at h
        simpa using h

/-- C4: SuitableQueuesFound on any list of queue families. If some family is both
graphics- and present-capable, it returns true with both index members equal to the
lowest index of such a family. Otherwise it returns true exactly when a
graphics-capable family and a present-capable family both exist, and then
graphicsQueueIndex names a graphics-capable family and presentQueueIndex names a
present-capable one. It returns false if either role has no candidate. -/
theorem SuitableQueuesFound_combined_first_else_separate
    (families : List QueueFamily) (g0 p0 : Nat) :
    ((∃ f ∈ families, hasGraphicsBit f = true ∧ f.surfaceSupport = true) →
      ∃ (i : Nat) (f : QueueFamily), families[i]? = some f
        ∧ hasGraphicsBit f = true ∧ f.surfaceSupport = true
        ∧ (∀ (j : Nat) (g : QueueFamily), j < i → families[j]? = some g →
            ¬ (hasGraphicsBit g = true ∧ g.surfaceSupport = true))
        ∧ SuitableQueuesFound families g0 p0 = ⟨true, i, i⟩)
    ∧ ((¬ ∃ f ∈ families, hasGraphicsBit f = true ∧ f.surfaceSupport = true) →
      ((SuitableQueuesFound families g0 p0).found = true ↔
          (∃ f ∈ families, hasGraphicsBit f = true)
          ∧ (∃ f ∈ families, f.surfaceSupport = true))
      ∧ ((SuitableQueuesFound families g0 p0).found = true →
          (∃ f, families[(SuitableQueuesFound families g0 p0).graphicsQueueIndex]? = some f
              ∧ hasGraphicsBit f = true)
          ∧ (∃ f, families[(SuitableQueuesFound families g0 p0).presentQueueIndex]? = some f
              ∧ f.surfaceSupport = true)))
    ∧ (((∀ f ∈ families, hasGraphicsBit f = false)
          ∨ (∀ f ∈ families, f.surfaceSupport = false)) →
        (SuitableQueuesFound families g0 p0).found = false) := by
  have hsplit : (¬ ∃ f ∈ families, hasGraphicsBit f = true ∧ f.surfaceSupport = true) →
      ((SuitableQueuesFound families g0 p0).found = true ↔
          (∃ f ∈ families, hasGraphicsBit f = true)
          ∧ (∃ f ∈ families, f.surfaceSupport = true))
      ∧ ((SuitableQueuesFound families g0 p0).found = true →
          (∃ f, families[(SuitableQueuesFound families g0 p0).graphicsQueueIndex]? = some f
              ∧ hasGraphicsBit f = true)
          ∧ (∃ f, families[(SuitableQueuesFound families g0 p0).presentQueueIndex]? = some f
              ∧ f.surfaceSupport = true)) := by
    intro hno
    have hno2 : ∀ f ∈ families, ¬ (hasGraphicsBit f = true ∧ f.surfaceSupport = true) :=
      fun f hf hp => hno ⟨f, hf, hp⟩
    have h := SuitableQueuesFoundLoop_split families [] false false g0 p0 hno2
      (fun e => Bool.noConfusion e) (fun e => Bool.noConfusion e)
    simp only [List.length_nil, List.nil_append, Bool.false_or] at h
    refine ⟨?_, h.2⟩
    unfold SuitableQueuesFound
    rw [h.1]
    simp [List.any_eq_true]
  refine ⟨?_, hsplit, ?_⟩
  · intro h
    obtain ⟨k, f, hk, hg, hs, hfirst, hres⟩ :=
      SuitableQueuesFoundLoop_both families 0 false false g0 p0 h
    refine ⟨k, f, hk, hg, hs, hfirst, ?_⟩
    unfold SuitableQueuesFound
    rw [hres]
    simp
  · intro hnone
    have hno : ¬ ∃ f ∈ families, hasGraphicsBit f = true ∧ f.surfaceSupport = true := by
      rintro ⟨f, hf, hg, hs⟩
      rcases hnone with hn | hn
      · rw [hn f hf] at hg; exact Bool.noConfusion hg
      · rw [hn f hf] at hs; exact Bool.noConfusion hs
    cases hfound : (SuitableQueuesFound families g0 p0).found with
    | false => rfl
    | true =>
      obtain ⟨⟨f, hf, hg⟩, ⟨f2, hf2, hs⟩⟩ := ((hsplit hno).1).1 hfound
      rcases hnone with hn | hn
      · rw [hn f hf] at hg; exact Bool.noConfusion hg
      · rw [hn f2 hf2] at hs; exact Bool.noConfusion hs

/-! ### Swapchain recreation and the frame loop -/

/-- Helper: a swapchain-setup call is none of reset, recording, submission, present
or fence reset. -/
theorem Call.isSwapchainSetup_excludes (c : Call) (h : c.isSwapchainSetup = true) :
    c.isCommandBufferReset = false ∧ c.isRecording = false ∧ c.isSubmit = false
      ∧ c.isPresent = false ∧ c.isFenceReset = false := by
  cases c <;> simp_all [Call.isSwapchainSetup, Call.isCommandBufferReset, Call.isRecording,
    Call.isSubmit, Call.isPresent, Call.isFenceReset]

/-- Helper: the count after `Resize(n); OverrideCount(n)` is `n`. -/
theorem resizeAndOverrideCount_length (v : List Handle) (n : Nat) :
    (resizeAndOverrideCount v n).length = n := by
  simp [resizeAndOverrideCount]

/-- Helper: `CreateSwapChain` issues only swapchain-setup calls. -/
theorem CreateSwapChain_calls (d : Driver) (s : VulkanRenderer) :
    ∀ c ∈ (CreateSwapChain d s).calls, c.isSwapchainSetup = true := by
  have hall : (CreateSwapChain d s).calls.all Call.isSwapchainSetup = true := by
    unfold CreateSwapChain
    by_cases h : d.createSwapchain = VK_SUCCESS <;> simp [h, Call.isSwapchainSetup]
  exact fun c hc => List.all_eq_true.1 hall c hc

/-- Helper: `CreateSwapChain` leaves views, framebuffers and the frame counter alone. -/
theorem CreateSwapChain_frame (d : Driver) (s : VulkanRenderer) :
    (CreateSwapChain d s).state.queuedFrameViews = s.queuedFrameViews
    ∧ (CreateSwapChain d s).state.frameBuffer = s.frameBuffer
    ∧ (CreateSwapChain d s).state.currentFrame = s.currentFrame := by
  unfold CreateSwapChain
  by_cases h : d.createSwapchain = VK_SUCCESS <;> simp [h]

/-- Helper: the image-view loop keeps the count of views and issues only setup calls. -/
theorem SetupImageViewsLoop_spec (d : Driver) (images : List Handle) (idxs : List Nat) :
    ∀ (views : List Handle) (calls : List Call),
      (∀ c ∈ calls, c.isSwapchainSetup = true) →
      (SetupImageViewsLoop d images idxs views calls).2.1.length = views.length
      ∧ ∀ c ∈ (SetupImageViewsLoop d images idxs views calls).2.2,
          c.isSwapchainSetup = true := by
  induction idxs with
  | nil => intro views calls h; exact ⟨rfl, h⟩
  | cons i rest ih =>
    intro views calls h
    have hcalls : ∀ c ∈ calls ++ [Call.vkCreateImageView (images.getD i 0)],
        c.isSwapchainSetup = true := by
      intro c hc
      rcases List.mem_append.1 hc with hm | hm
      · exact h c hm
      · simp at hm; subst hm; rfl
    unfold SetupImageViewsLoop
    by_cases hr : d.createImageView i = VK_SUCCESS
    · rw [if_neg (not_not.2 hr)]
      have := ih (views.set i (d.newImageView i)) _ hcalls
      simpa using this
    · rw [if_pos hr]
      exact ⟨rfl, hcalls⟩

/-- Helper: the framebuffer loop keeps the count of framebuffers and issues only setup
calls. -/
theorem CreateFrameBuffersLoop_spec (d : Driver) (views : List Handle) (extent : VkExtent2D)
    (idxs : List Nat) :
    ∀ (buffers : List Handle) (calls : List Call),
      (∀ c ∈ calls, c.isSwapchainSetup = true) →
      (CreateFrameBuffersLoop d views extent idxs buffers calls).2.1.length = buffers.length
      ∧ ∀ c ∈ (CreateFrameBuffersLoop d views extent idxs buffers calls).2.2,
          c.isSwapchainSetup = true := by
  induction idxs with
  | nil => intro buffers calls h; exact ⟨rfl, h⟩
  | cons i rest ih =>
    intro buffers calls h
    have hcalls : ∀ c ∈ calls ++
        [Call.vkCreateFramebuffer (views.getD i 0) extent.width extent.height],
        c.isSwapchainSetup = true := by
      intro c hc
      rcases List.mem_append.1 hc with hm | hm
      · exact h c hm
      · simp at hm; subst hm; rfl
    unfold CreateFrameBuffersLoop
    by_cases hr : d.createFramebuffer i = VK_SUCCESS
    · rw [if_neg (not_not.2 hr)]
      have := ih (buffers.set i (d.newFramebuffer i)) _ hcalls
      simpa using this
    · rw [if_pos hr]
      exact ⟨rfl, hcalls⟩

/-- Helper: after `SetupImageViews`, whatever it returns, there are as many views as
images; images, framebuffers and the frame counter are untouched. -/
theorem SetupImageViews_spec (d : Driver) (s : VulkanRenderer) :
    (SetupImageViews d s).state.queuedFrameViews.length = s.queuedFrames.length
    ∧ (SetupImageViews d s).state.queuedFrames = s.queuedFrames
    ∧ (SetupImageViews d s).state.frameBuffer = s.frameBuffer
    ∧ (SetupImageViews d s).state.currentFrame = s.currentFrame
    ∧ ∀ c ∈ (SetupImageViews d s).calls, c.isSwapchainSetup = true := by
  have h := SetupImageViewsLoop_spec d s.queuedFrames (List.range s.queuedFrames.length)
    (resizeAndOverrideCount s.queuedFrameViews s.queuedFrames.length) []
    (by intro c hc; simp at hc)
  rw [resizeAndOverrideCount_length] at h
  exact ⟨h.1, rfl, rfl, rfl, h.2⟩

/-- Helper: after `CreateFrameBuffers`, whatever it returns, there are as many
framebuffers as views; images, views and the frame counter are untouched. -/
theorem CreateFrameBuffers_spec (d : Driver) (s : VulkanRenderer) :
    (CreateFrameBuffers d s).state.frameBuffer.length = s.queuedFrameViews.length
    ∧ (CreateFrameBuffers d s).state.queuedFrames = s.queuedFrames
    ∧ (CreateFrameBuffers d s).state.queuedFrameViews = s.queuedFrameViews
    ∧ (CreateFrameBuffers d s).state.currentFrame = s.currentFrame
    ∧ ∀ c ∈ (CreateFrameBuffers d s).calls, c.isSwapchainSetup = true := by
  have h := CreateFrameBuffersLoop_spec d s.queuedFrameViews s.extent
    (List.range s.queuedFrameViews.length)
    (resizeAndOverrideCount s.frameBuffer s.queuedFrameViews.length) []
    (by intro c hc; simp at hc)
  rw [resizeAndOverrideCount_length] at h
  exact ⟨h.1, rfl, rfl, rfl, h.2⟩

/-- Helper: `RecreateSwapChain` issues only swapchain-setup calls. -/
theorem RecreateSwapChain_calls (d : Driver) (s : VulkanRenderer) :
    ∀ c ∈ (RecreateSwapChain d s).calls, c.isSwapchainSetup = true := by
  have h1 := CreateSwapChain_calls d s
  have h2 := (SetupImageViews_spec d (CreateSwapChain d s).state).2.2.2.2
  have h3 := (CreateFrameBuffers_spec d (SetupImageViews d (CreateSwapChain d s).state).state).2.2.2.2
  intro c hc
  unfold RecreateSwapChain at hc
  by_cases h0 : d.deviceWaitIdle = 0
  · rw [if_pos h0] at hc
    simp at hc; subst hc; rfl
  · rw [if_neg h0] at hc
    dsimp only at hc
    by_cases hr1 : (CreateSwapChain d s).ret = false
    · rw [if_pos hr1] at hc
      simp only [List.mem_append, List.mem_singleton] at hc
      rcases hc with e | hm
      · subst e; rfl
      · exact h1 c hm
    · rw [if_neg hr1] at hc
      by_cases hr2 : (SetupImageViews d (CreateSwapChain d s).state).ret = false
      · rw [if_pos hr2] at hc
        simp only [List.mem_append, List.mem_singleton] at hc
        rcases hc with (e | hm) | hm
        · subst e; rfl
        · exact h1 c hm
        · exact h2 c hm
      · rw [if_neg hr2] at hc
        simp only [List.mem_append, List.mem_singleton] at hc
        rcases hc with ((e | hm) | hm) | hm
        · subst e; rfl
        · exact h1 c hm
        · exact h2 c hm
        · exact h3 c hm

/-- Helper: `RecreateSwapChain` never changes the frame counter. -/
theorem RecreateSwapChain_currentFrame (d : Driver) (s : VulkanRenderer) :
    (RecreateSwapChain d s).state.currentFrame = s.currentFrame := by
  have h1 := (CreateSwapChain_frame d s).2.2
  have h2 := (SetupImageViews_spec d (CreateSwapChain d s).state).2.2.2.1
  have h3 :=
    (CreateFrameBuffers_spec d (SetupImageViews d (CreateSwapChain d s).state).state).2.2.2.1
  unfold RecreateSwapChain
  by_cases h0 : d.deviceWaitIdle = 0
  · rw [if_pos h0]
  · rw [if_neg h0]
    dsimp only
    by_cases hr1 : (CreateSwapChain d s).ret = false
    · rw [if_pos hr1]; exact h1
    · rw [if_neg hr1]
      by_cases hr2 : (SetupImageViews d (CreateSwapChain d s).state).ret = false
      · rw [if_pos hr2]; exact h2.trans h1
      · rw [if_neg hr2]; exact h3.trans (h2.trans h1)

/-- Helper: when `RecreateSwapChain` returns true, all three creation members ran and
the state is the one `CreateFrameBuffers` left. -/
theorem RecreateSwapChain_true (d : Driver) (s : VulkanRenderer)
    (h : (RecreateSwapChain d s).ret = true) :
    d.deviceWaitIdle ≠ 0
    ∧ (RecreateSwapChain d s).state
        = (CreateFrameBuffers d (SetupImageViews d (CreateSwapChain d s).state).state).state := by
  unfold RecreateSwapChain at h ⊢
  by_cases h0 : d.deviceWaitIdle = 0
  · rw [if_pos h0] at h; exact Bool.noConfusion h
  · rw [if_neg h0] at h ⊢
    dsimp only at h ⊢
    by_cases hr1 : (CreateSwapChain d s).ret = false
    · rw [if_pos hr1] at h; exact Bool.noConfusion h
    · rw [if_neg hr1] at h ⊢
      by_cases hr2 : (SetupImageViews d (CreateSwapChain d s).state).ret = false
      · rw [if_pos hr2] at h; exact Bool.noConfusion h
      · rw [if_neg hr2]
        exact ⟨h0, rfl⟩

/-- Helper: whenever `vkDeviceWaitIdle` succeeds, `RecreateSwapChain` stops after it:
it returns false, leaves the state as it was and issues no other call. -/
theorem RecreateSwapChain_waitIdle_success (d : Driver) (s : VulkanRenderer)
    (h : d.deviceWaitIdle = VK_SUCCESS) :
    RecreateSwapChain d s = ⟨false, s, [Call.vkDeviceWaitIdle]⟩ := by
  have h0 : d.deviceWaitIdle = 0 := h
  unfold RecreateSwapChain
  rw [if_pos h0]

/-- Helper: when `vkCreateSwapchainKHR` succeeds, `CreateSwapChain` leaves as many
images as the driver reports for the new swapchain. -/
theorem CreateSwapChain_images_length (d : Driver) (s : VulkanRenderer)
    (h : d.createSwapchain = VK_SUCCESS) :
    (CreateSwapChain d s).state.queuedFrames.length = d.swapchainImageCount := by
  unfold CreateSwapChain
  rw [if_neg (not_not.2 h)]
  by_cases hg : d.getSwapchainImages = VK_SUCCESS
  · simp [hg]
  · simp [hg, resizeAndOverrideCount_length]

/-- Helper: the first switch of `DrawFrame` on SUBOPTIMAL. -/
theorem DrawFrame_acquire_suboptimal (d : Driver) (s : VulkanRenderer)
    (hacq : d.acquireNextImage = VK_SUBOPTIMAL_KHR) :
    DrawFrame d s =
      ⟨true, (RecreateSwapChain d s).state,
        [Call.vkWaitForFences s.inFlightFence,
         Call.vkAcquireNextImageKHR s.swapchain s.imageMutex]
          ++ (RecreateSwapChain d s).calls⟩ := by
  unfold DrawFrame
  rw [if_pos hacq]

/-- C5: when image acquisition reports SUBOPTIMAL, DrawFrame returns true and issues no
command-buffer reset, no command recording, no queue submission and no present call,
for every renderer state and every reply of the driver to the recreation it triggers. -/
theorem DrawFrame_acquire_suboptimal_drops_frame (d : Driver) (s : VulkanRenderer)
    (hacq : d.acquireNextImage = VK_SUBOPTIMAL_KHR) :
    (DrawFrame d s).ret = true
    ∧ ∀ c ∈ (DrawFrame d s).calls,
        c.isCommandBufferReset = false ∧ c.isRecording = false
        ∧ c.isSubmit = false ∧ c.isPresent = false := by
  rw [DrawFrame_acquire_suboptimal d s hacq]
  refine ⟨rfl, ?_⟩
  intro c hc
  simp only [List.mem_append, List.mem_cons, List.mem_singleton, List.not_mem_nil,
    or_false] at hc
  rcases hc with (e | e) | hm
  · subst e; exact ⟨rfl, rfl, rfl, rfl⟩
  · subst e; exact ⟨rfl, rfl, rfl, rfl⟩
  · have h := Call.isSwapchainSetup_excludes c (RecreateSwapChain_calls d s c hm)
    exact ⟨h.1, h.2.1, h.2.2.1, h.2.2.2.1⟩

/-- Witness for C5: SUBOPTIMAL at acquire with a recreation that runs to the end. -/
theorem DrawFrame_acquire_suboptimal_drops_frame_witness :
    driverSuboptimalWaitIdleError.acquireNextImage = VK_SUBOPTIMAL_KHR
    ∧ (DrawFrame driverSuboptimalWaitIdleError rendererWithThreeImages).ret = true
    ∧ ∀ c ∈ (DrawFrame driverSuboptimalWaitIdleError rendererWithThreeImages).calls,
        c.isCommandBufferReset = false ∧ c.isRecording = false
        ∧ c.isSubmit = false ∧ c.isPresent = false :=
  ⟨by decide,
   DrawFrame_acquire_suboptimal_drops_frame driverSuboptimalWaitIdleError
     rendererWithThreeImages (by decide)⟩

/-- C6: with acquisition reporting SUBOPTIMAL and `vkDeviceWaitIdle` and every creation
call succeeding, DrawFrame issues the fence wait, the acquire and the device wait and
nothing else: no swapchain, image view or framebuffer is created, the renderer state
is unchanged and RecreateSwapChain returns false. -/
theorem DrawFrame_acquire_suboptimal_waitIdle_success_no_rebuild :
    driverAcquireSuboptimal.acquireNextImage = VK_SUBOPTIMAL_KHR
    ∧ driverAcquireSuboptimal.deviceWaitIdle = VK_SUCCESS
    ∧ driverAcquireSuboptimal.createSwapchain = VK_SUCCESS
    ∧ driverAcquireSuboptimal.getSwapchainImages = VK_SUCCESS
    ∧ (RecreateSwapChain driverAcquireSuboptimal rendererWithThreeImages).ret = false
    ∧ (DrawFrame driverAcquireSuboptimal rendererWithThreeImages).calls
        = [Call.vkWaitForFences 70, Call.vkAcquireNextImageKHR 20 71, Call.vkDeviceWaitIdle]
    ∧ (DrawFrame driverAcquireSuboptimal rendererWithThreeImages).state
        = rendererWithThreeImages
    ∧ ∀ c ∈ (DrawFrame driverAcquireSuboptimal rendererWithThreeImages).calls,
        c.isSwapchainCreate = false ∧ c.isImageViewCreate = false
        ∧ c.isFramebufferCreate = false := by
  refine ⟨by decide, by decide, by decide, by decide, by decide, by decide, by decide,
    by decide⟩

/-- C7 (as stated, refuted): with acquisition reporting SUBOPTIMAL, here with a
recreation that runs to the end, DrawFrame returns and no call of the invocation
resets a fence. -/
theorem DrawFrame_acquire_suboptimal_fence_reset_absent :
    driverSuboptimalWaitIdleError.acquireNextImage = VK_SUBOPTIMAL_KHR
    ∧ ¬ ∃ c ∈ (DrawFrame driverSuboptimalWaitIdleError rendererWithThreeImages).calls,
        c.isFenceReset = true := by
  decide

/-- C7 (amended): when image acquisition reports SUBOPTIMAL, DrawFrame returns true
without resetting the frame-complete fence: no fence reset is issued in that
invocation. -/
theorem DrawFrame_acquire_suboptimal_keeps_fence (d : Driver) (s : VulkanRenderer)
    (hacq : d.acquireNextImage = VK_SUBOPTIMAL_KHR) :
    (DrawFrame d s).ret = true
    ∧ ∀ c ∈ (DrawFrame d s).calls, c.isFenceReset = false := by
  rw [DrawFrame_acquire_suboptimal d s hacq]
  refine ⟨rfl, ?_⟩
  intro c hc
  simp only [List.mem_append, List.mem_cons, List.mem_singleton, List.not_mem_nil,
    or_false] at hc
  rcases hc with (e | e) | hm
  · subst e; rfl
  · subst e; rfl
  · exact (Call.isSwapchainSetup_excludes c (RecreateSwapChain_calls d s c hm)).2.2.2.2

/-- Witness for C7 (amended): SUBOPTIMAL at acquire with a successful device wait. -/
theorem DrawFrame_acquire_suboptimal_keeps_fence_witness :
    driverAcquireSuboptimal.acquireNextImage = VK_SUBOPTIMAL_KHR
    ∧ (DrawFrame driverAcquireSuboptimal rendererWithThreeImages).ret = true
    ∧ ∀ c ∈ (DrawFrame driverAcquireSuboptimal rendererWithThreeImages).calls,
        c.isFenceReset = false :=
  ⟨by decide,
   DrawFrame_acquire_suboptimal_keeps_fence driverAcquireSuboptimal
     rendererWithThreeImages (by decide)⟩

/-- C8: for every renderer state and every reply of the driver, if RecreateSwapChain
returns true then the numbers of swapchain images, image views and framebuffers are
all equal in the state it leaves. -/
theorem RecreateSwapChain_true_lengths_agree (d : Driver) (s : VulkanRenderer)
    (h : (RecreateSwapChain d s).ret = true) :
    (RecreateSwapChain d s).state.queuedFrames.length
        = (RecreateSwapChain d s).state.queuedFrameViews.length
    ∧ (RecreateSwapChain d s).state.queuedFrameViews.length
        = (RecreateSwapChain d s).state.frameBuffer.length := by
  rw [(RecreateSwapChain_true d s h).2]
  have hv := SetupImageViews_spec d (CreateSwapChain d s).state
  have hf := CreateFrameBuffers_spec d (SetupImageViews d (CreateSwapChain d s).state).state
  rw [hf.1, hf.2.1, hf.2.2.1, hv.1, hv.2.1]
  exact ⟨rfl, rfl⟩

/-- Witness for C8: the device wait reports a lost device (a non-zero result) and the
creation calls succeed, so RecreateSwapChain returns true. -/
theorem RecreateSwapChain_true_lengths_agree_witness :
    (RecreateSwapChain driverSuboptimalWaitIdleError rendererWithThreeImages).ret = true
    ∧ (RecreateSwapChain driverSuboptimalWaitIdleError
          rendererWithThreeImages).state.queuedFrames.length
        = (RecreateSwapChain driverSuboptimalWaitIdleError
          rendererWithThreeImages).state.queuedFrameViews.length
    ∧ (RecreateSwapChain driverSuboptimalWaitIdleError
          rendererWithThreeImages).state.queuedFrameViews.length
        = (RecreateSwapChain driverSuboptimalWaitIdleError
          rendererWithThreeImages).state.frameBuffer.length :=
  ⟨by decide,
   RecreateSwapChain_true_lengths_agree driverSuboptimalWaitIdleError
     rendererWithThreeImages (by decide)⟩

/-- C9: from a state with three images, three views and three framebuffers, a frame
whose present reports OUT_OF_DATE and whose new swapchain has two images ends with
DrawFrame returning true and two images, three views and three framebuffers: only
CreateSwapChain runs on that path, so the lengths no longer agree. -/
theorem DrawFrame_present_out_of_date_breaks_lengths :
    lengthsAgree rendererWithThreeImages
    ∧ driverPresentOutOfDate.queuePresent = VK_ERROR_OUT_OF_DATE_KHR
    ∧ (DrawFrame driverPresentOutOfDate rendererWithThreeImages).ret = true
    ∧ (DrawFrame driverPresentOutOfDate rendererWithThreeImages).state.queuedFrames.length = 2
    ∧ (DrawFrame driverPresentOutOfDate
          rendererWithThreeImages).state.queuedFrameViews.length = 3
    ∧ (DrawFrame driverPresentOutOfDate rendererWithThreeImages).state.frameBuffer.length = 3
    ∧ ¬ lengthsAgree (DrawFrame driverPresentOutOfDate rendererWithThreeImages).state := by
  refine ⟨by decide, by decide, by decide, by decide, by decide, by decide, by decide⟩

/-- Helper: `RecordCommandBuffer` issues only recording calls. -/
theorem RecordCommandBuffer_calls (d : Driver) (s : VulkanRenderer) (imageIndex : Nat) :
    ∀ c ∈ (RecordCommandBuffer d s imageIndex).2, c.isRecording = true := by
  intro c hc
  unfold RecordCommandBuffer at hc
  by_cases hb : d.beginCommandBuffer = VK_SUCCESS
  · rw [if_neg (not_not.2 hb)] at hc
    simp only [List.mem_append, List.mem_cons, List.mem_singleton, List.not_mem_nil,
      or_false, List.mem_flatten, List.mem_map] at hc
    rcases hc with ((e | e | e | e | e) | ⟨l, ⟨m, _, hl⟩, hcl⟩) | (e | e)
    · subst e; rfl
    · subst e; rfl
    · subst e; rfl
    · subst e; rfl
    · subst e; rfl
    · subst hl
      simp only [drawModel, List.mem_cons, List.mem_singleton, List.not_mem_nil,
        or_false] at hcl
      rcases hcl with e | e | e <;> subst e <;> rfl
    · subst e; rfl
    · subst e; rfl
  · rw [if_pos hb] at hc
    simp at hc; subst hc; rfl

/-- Helper: a recording call is neither a present call nor a swapchain creation. -/
theorem Call.isRecording_excludes (c : Call) (h : c.isRecording = true) :
    c.isPresent = false ∧ c.isSwapchainCreate = false := by
  cases c <;> simp_all [Call.isRecording, Call.isPresent, Call.isSwapchainCreate]

/-- Helper: the frame counter update lands in {0, 1, 2}, and from a value in
{0, 1, 2} it is the successor modulo 3. -/
theorem nextFrame_spec (c : Nat) :
    nextFrame c < 3 ∧ (c < 3 → nextFrame c = (c + 1) % 3) := by
  unfold nextFrame
  refine ⟨Nat.mod_lt _ (by decide), ?_⟩
  intro hc
  have h : (c + 1) % 2 ^ 32 = c + 1 := Nat.mod_eq_of_lt (by
    have : (4 : Nat) ≤ 2 ^ 32 := by decide
    omega)
  rw [h]

/-- Helper: when acquire, recording and submission succeed, `DrawFrame` reaches the
second switch with the calls below already issued. -/
theorem DrawFrame_present_step (d : Driver) (s : VulkanRenderer)
    (hacq : d.acquireNextImage = VK_SUCCESS) (hbegin : d.beginCommandBuffer = VK_SUCCESS)
    (hend : d.endCommandBuffer = VK_SUCCESS) (hsub : d.queueSubmit = VK_SUCCESS) :
    DrawFrame d s =
      (if d.queuePresent = VK_ERROR_OUT_OF_DATE_KHR ∨ d.queuePresent = VK_SUBOPTIMAL_KHR then
        ⟨true, { (CreateSwapChain d s).state with
                  currentFrame := nextFrame (CreateSwapChain d s).state.currentFrame },
          [Call.vkWaitForFences s.inFlightFence,
           Call.vkAcquireNextImageKHR s.swapchain s.imageMutex]
          ++ [Call.vkResetFences s.inFlightFence, Call.vkResetCommandBuffer s.command]
          ++ (RecordCommandBuffer d s d.imageIndex).2
          ++ [Call.vkQueueSubmit s.graphicsQueue s.inFlightFence]
          ++ [Call.vkQueuePresentKHR s.presentQueue s.swapchain d.imageIndex]
          ++ (CreateSwapChain d s).calls⟩
      else if d.queuePresent = VK_SUCCESS then
        ⟨true, { s with currentFrame := nextFrame s.currentFrame },
          [Call.vkWaitForFences s.inFlightFence,
           Call.vkAcquireNextImageKHR s.swapchain s.imageMutex]
          ++ [Call.vkResetFences s.inFlightFence, Call.vkResetCommandBuffer s.command]
          ++ (RecordCommandBuffer d s d.imageIndex).2
          ++ [Call.vkQueueSubmit s.graphicsQueue s.inFlightFence]
          ++ [Call.vkQueuePresentKHR s.presentQueue s.swapchain d.imageIndex]⟩
      else
        ⟨false, s,
          [Call.vkWaitForFences s.inFlightFence,
           Call.vkAcquireNextImageKHR s.swapchain s.imageMutex]
          ++ [Call.vkResetFences s.inFlightFence, Call.vkResetCommandBuffer s.command]
          ++ (RecordCommandBuffer d s d.imageIndex).2
          ++ [Call.vkQueueSubmit s.graphicsQueue s.inFlightFence]
          ++ [Call.vkQueuePresentKHR s.presentQueue s.swapchain d.imageIndex]⟩) := by
  have hne : ¬ d.acquireNextImage = VK_SUBOPTIMAL_KHR := by
    rw [hacq]; decide
  have hrec : ¬ (RecordCommandBuffer d s d.imageIndex).1 = false := by
    unfold RecordCommandBuffer
    rw [if_neg (not_not.2 hbegin), hend]
    simp
  unfold DrawFrame
  rw [if_neg hne, if_pos hacq]
  dsimp only
  rw [if_neg hrec, if_neg (not_not.2 hsub)]

/-- Helper: on every frame that reaches the present step and whose present reports
OUT_OF_DATE or SUBOPTIMAL, with the new swapchain created, the images follow the new
swapchain while views and framebuffers are the old ones. -/
theorem DrawFrame_present_recreate_state (d : Driver) (s : VulkanRenderer)
    (hacq : d.acquireNextImage = VK_SUCCESS) (hbegin : d.beginCommandBuffer = VK_SUCCESS)
    (hend : d.endCommandBuffer = VK_SUCCESS) (hsub : d.queueSubmit = VK_SUCCESS)
    (hp : d.queuePresent = VK_ERROR_OUT_OF_DATE_KHR ∨ d.queuePresent = VK_SUBOPTIMAL_KHR)
    (hcs : d.createSwapchain = VK_SUCCESS) :
    (DrawFrame d s).state.queuedFrames.length = d.swapchainImageCount
    ∧ (DrawFrame d s).state.queuedFrameViews = s.queuedFrameViews
    ∧ (DrawFrame d s).state.frameBuffer = s.frameBuffer := by
  rw [DrawFrame_present_step d s hacq hbegin hend hsub, if_pos hp]
  exact ⟨CreateSwapChain_images_length d s hcs, (CreateSwapChain_frame d s).1,
    (CreateSwapChain_frame d s).2.1⟩

/-- Helper: the second switch of `DrawFrame`, for an invocation that reaches the present
step (acquire, recording and submission succeeded) from a frame counter in {0, 1, 2}:
on present SUCCESS the counter becomes (old + 1) mod 3 and `DrawFrame` returns true; on
present OUT_OF_DATE or SUBOPTIMAL the calls of `CreateSwapChain` follow the present call
and `DrawFrame` returns true; on any other present result `DrawFrame` returns false with
the counter unchanged. In every case the counter stays in {0, 1, 2}. -/
theorem DrawFrame_present_outcomes (d : Driver) (s : VulkanRenderer)
    (hacq : d.acquireNextImage = VK_SUCCESS) (hbegin : d.beginCommandBuffer = VK_SUCCESS)
    (hend : d.endCommandBuffer = VK_SUCCESS) (hsub : d.queueSubmit = VK_SUCCESS)
    (hc : s.currentFrame < 3) :
    ∃ pre : List Call,
      (∀ c ∈ pre, c.isPresent = false ∧ c.isSwapchainCreate = false)
      ∧ (d.queuePresent = VK_SUCCESS →
          (DrawFrame d s).ret = true
          ∧ (DrawFrame d s).state.currentFrame = (s.currentFrame + 1) % 3
          ∧ (DrawFrame d s).calls
              = pre ++ [Call.vkQueuePresentKHR s.presentQueue s.swapchain d.imageIndex])
      ∧ (d.queuePresent = VK_ERROR_OUT_OF_DATE_KHR ∨ d.queuePresent = VK_SUBOPTIMAL_KHR →
          (DrawFrame d s).ret = true
          ∧ (DrawFrame d s).calls
              = pre ++ [Call.vkQueuePresentKHR s.presentQueue s.swapchain d.imageIndex]
                  ++ (CreateSwapChain d s).calls
          ∧ ∃ c ∈ (CreateSwapChain d s).calls, c.isSwapchainCreate = true)
      ∧ (d.queuePresent ≠ VK_SUCCESS → d.queuePresent ≠ VK_ERROR_OUT_OF_DATE_KHR →
          d.queuePresent ≠ VK_SUBOPTIMAL_KHR →
          (DrawFrame d s).ret = false
          ∧ (DrawFrame d s).state.currentFrame = s.currentFrame
          ∧ (DrawFrame d s).calls
              = pre ++ [Call.vkQueuePresentKHR s.presentQueue s.swapchain d.imageIndex])
      ∧ (DrawFrame d s).state.currentFrame < 3 := by
  have hstep := DrawFrame_present_step d s hacq hbegin hend hsub
  have hcf := (CreateSwapChain_frame d s).2.2
  have hcreate : ∃ c ∈ (CreateSwapChain d s).calls, c.isSwapchainCreate = true := by
    refine ⟨Call.vkCreateSwapchainKHR (swapchainCreateInfo d s), ?_, rfl⟩
    unfold CreateSwapChain
    by_cases h : d.createSwapchain = VK_SUCCESS <;> simp [h]
  refine ⟨[Call.vkWaitForFences s.inFlightFence,
           Call.vkAcquireNextImageKHR s.swapchain s.imageMutex]
          ++ [Call.vkResetFences s.inFlightFence, Call.vkResetCommandBuffer s.command]
          ++ (RecordCommandBuffer d s d.imageIndex).2
          ++ [Call.vkQueueSubmit s.graphicsQueue s.inFlightFence], ?_, ?_, ?_, ?_, ?_⟩
  · intro c hcm
    simp only [List.mem_append, List.mem_cons, List.mem_singleton, List.not_mem_nil,
      or_false] at hcm
    rcases hcm with (((e | e) | (e | e)) | hm) | e
    · subst e; exact ⟨rfl, rfl⟩
    · subst e; exact ⟨rfl, rfl⟩
    · subst e; exact ⟨rfl, rfl⟩
    · subst e; exact ⟨rfl, rfl⟩
    · exact Call.isRecording_excludes c (RecordCommandBuffer_calls d s d.imageIndex c hm)
    · subst e; exact ⟨rfl, rfl⟩
  · intro hp
    have h1 : ¬ (d.queuePresent = VK_ERROR_OUT_OF_DATE_KHR
        ∨ d.queuePresent = VK_SUBOPTIMAL_KHR) := by
      rw [hp]; decide
    rw [hstep, if_neg h1, if_pos hp]
    exact ⟨rfl, (nextFrame_spec s.currentFrame).2 hc, rfl⟩
  · intro hp
    rw [hstep, if_pos hp]
    exact ⟨rfl, rfl, hcreate⟩
  · intro h1 h2 h3
    have h4 : ¬ (d.queuePresent = VK_ERROR_OUT_OF_DATE_KHR
        ∨ d.queuePresent = VK_SUBOPTIMAL_KHR) := by
      rintro (h | h)
      · exact h2 h
      · exact h3 h
    rw [hstep, if_neg h4, if_neg h1]
    exact ⟨rfl, rfl, rfl⟩
  · rw [hstep]
    by_cases h4 : d.queuePresent = VK_ERROR_OUT_OF_DATE_KHR ∨ d.queuePresent = VK_SUBOPTIMAL_KHR
    · rw [if_pos h4]
      exact (nextFrame_spec _).1
    · rw [if_neg h4]
      by_cases h1 : d.queuePresent = VK_SUCCESS
      · rw [if_pos h1]
        exact (nextFrame_spec _).1
      · rw [if_neg h1]
        exact hc

/-- Example of the second switch: every call succeeds from the counter at 0. -/
theorem DrawFrame_present_outcomes_witness :
    driverAllSuccess.acquireNextImage = VK_SUCCESS
    ∧ rendererWithThreeImages.currentFrame < 3
    ∧ ∃ pre : List Call,
      (∀ c ∈ pre, c.isPresent = false ∧ c.isSwapchainCreate = false)
      ∧ (driverAllSuccess.queuePresent = VK_SUCCESS →
          (DrawFrame driverAllSuccess rendererWithThreeImages).ret = true
          ∧ (DrawFrame driverAllSuccess rendererWithThreeImages).state.currentFrame
              = (rendererWithThreeImages.currentFrame + 1) % 3
          ∧ (DrawFrame driverAllSuccess rendererWithThreeImages).calls
              = pre ++ [Call.vkQueuePresentKHR rendererWithThreeImages.presentQueue
                  rendererWithThreeImages.swapchain driverAllSuccess.imageIndex])
      ∧ (driverAllSuccess.queuePresent = VK_ERROR_OUT_OF_DATE_KHR
            ∨ driverAllSuccess.queuePresent = VK_SUBOPTIMAL_KHR →
          (DrawFrame driverAllSuccess rendererWithThreeImages).ret = true
          ∧ (DrawFrame driverAllSuccess rendererWithThreeImages).calls
              = pre ++ [Call.vkQueuePresentKHR rendererWithThreeImages.presentQueue
                  rendererWithThreeImages.swapchain driverAllSuccess.imageIndex]
                  ++ (CreateSwapChain driverAllSuccess rendererWithThreeImages).calls
          ∧ ∃ c ∈ (CreateSwapChain driverAllSuccess rendererWithThreeImages).calls,
              c.isSwapchainCreate = true)
      ∧ (driverAllSuccess.queuePresent ≠ VK_SUCCESS →
          driverAllSuccess.queuePresent ≠ VK_ERROR_OUT_OF_DATE_KHR →
          driverAllSuccess.queuePresent ≠ VK_SUBOPTIMAL_KHR →
          (DrawFrame driverAllSuccess rendererWithThreeImages).ret = false
          ∧ (DrawFrame driverAllSuccess rendererWithThreeImages).state.currentFrame
              = rendererWithThreeImages.currentFrame
          ∧ (DrawFrame driverAllSuccess rendererWithThreeImages).calls
              = pre ++ [Call.vkQueuePresentKHR rendererWithThreeImages.presentQueue
                  rendererWithThreeImages.swapchain driverAllSuccess.imageIndex])
      ∧ (DrawFrame driverAllSuccess rendererWithThreeImages).state.currentFrame < 3 :=
  ⟨by decide, by decide,
   DrawFrame_present_outcomes driverAllSuccess rendererWithThreeImages
     (by decide) (by decide) (by decide) (by decide) (by decide)⟩


/-! ### Transient conditions, recording and the fence -/

/-- Helper: whenever image acquisition reports neither SUBOPTIMAL nor SUCCESS, `DrawFrame`
returns false after the fence wait and the acquire, with the state as it was. -/
theorem DrawFrame_acquire_other (d : Driver) (s : VulkanRenderer)
    (h1 : d.acquireNextImage ≠ VK_SUBOPTIMAL_KHR) (h2 : d.acquireNextImage ≠ VK_SUCCESS) :
    DrawFrame d s =
      ⟨false, s, [Call.vkWaitForFences s.inFlightFence,
                  Call.vkAcquireNextImageKHR s.swapchain s.imageMutex]⟩ := by
  unfold DrawFrame
  rw [if_neg h1, if_neg h2]

/-- C11: with image acquisition reporting OUT_OF_DATE and every other reply of the
driver a success, DrawFrame returns false: the first switch has no case for
OUT_OF_DATE, so it takes the default branch, nothing is recreated and the state is
unchanged. -/
theorem DrawFrame_acquire_out_of_date_returns_false :
    driverAcquireOutOfDate.acquireNextImage = VK_ERROR_OUT_OF_DATE_KHR
    ∧ driverAcquireOutOfDate.deviceWaitIdle = VK_SUCCESS
    ∧ driverAcquireOutOfDate.createSwapchain = VK_SUCCESS
    ∧ driverAcquireOutOfDate.queueSubmit = VK_SUCCESS
    ∧ driverAcquireOutOfDate.queuePresent = VK_SUCCESS
    ∧ (DrawFrame driverAcquireOutOfDate rendererWithThreeImages).ret = false
    ∧ (DrawFrame driverAcquireOutOfDate rendererWithThreeImages).calls
        = [Call.vkWaitForFences 70, Call.vkAcquireNextImageKHR 20 71]
    ∧ (DrawFrame driverAcquireOutOfDate rendererWithThreeImages).state
        = rendererWithThreeImages := by
  refine ⟨by decide, by decide, by decide, by decide, by decide, by decide, by decide,
    by decide⟩

/-- Helper: when `vkBeginCommandBuffer` fails, `RecordCommandBuffer` returns false and has
issued that call only. -/
theorem RecordCommandBuffer_begin_fails (d : Driver) (s : VulkanRenderer) (imageIndex : Nat)
    (h : d.beginCommandBuffer ≠ VK_SUCCESS) :
    RecordCommandBuffer d s imageIndex = (false, [Call.vkBeginCommandBuffer s.command]) := by
  unfold RecordCommandBuffer
  rw [if_pos h]

/-- Helper: the commands of a recording that began. -/
theorem RecordCommandBuffer_begin_ok (d : Driver) (s : VulkanRenderer) (imageIndex : Nat)
    (h : d.beginCommandBuffer = VK_SUCCESS) :
    (RecordCommandBuffer d s imageIndex).2 =
      [Call.vkBeginCommandBuffer s.command,
       Call.vkCmdBeginRenderPass s.frameBuffer[imageIndex]? s.extent,
       Call.vkCmdBindPipeline s.pipeline,
       Call.vkCmdSetViewport (castToFloat s.extent.width) (castToFloat s.extent.height),
       Call.vkCmdSetScissor s.extent]
      ++ (s.models.map drawModel).flatten
      ++ [Call.vkCmdEndRenderPass, Call.vkEndCommandBuffer s.command] := by
  unfold RecordCommandBuffer
  rw [if_neg (not_not.2 h)]

/-- Helper: the indexed draws among the commands recorded for a list of models are one
per model, in order, with the model's index count and instance count 1. -/
theorem drawModel_draws (models : List ObjModel) :
    (models.map drawModel).flatten.filter Call.isDrawIndexed
      = models.map fun m => Call.vkCmdDrawIndexed m.indexCount 1 := by
  induction models with
  | nil => rfl
  | cons m rest ih =>
    simp only [List.map_cons, List.flatten_cons, List.filter_append, ih]
    rfl

/-- Helper: the float cast is exact up to 2^24. -/
theorem castToFloat_exact (n : Nat) (h : n ≤ 2 ^ 24) : castToFloat n = n := by
  rcases Nat.lt_or_eq_of_le h with hlt | heq
  · have hd : droppedBits n n = 0 := by
      cases n with
      | zero => rfl
      | succ m =>
        unfold droppedBits
        rw [if_pos hlt]
    unfold castToFloat
    simp [hd, Nat.mod_one]
  · subst heq
    decide

/-- C14 (as stated, refuted): with one registered model of 3 indices and
`vkBeginCommandBuffer` failing, RecordCommandBuffer returns false having issued no
indexed draw (and no render-pass command at all). And when recording begins with an
extent of width 2^24 + 1, the viewport command carries the float width 2^24, not the
extent's width. -/
theorem RecordCommandBuffer_begin_fails_no_draw :
    rendererWithThreeImages.models = [⟨80, 81, 3⟩]
    ∧ RecordCommandBuffer driverBeginCommandBufferFails rendererWithThreeImages 0
        = (false, [Call.vkBeginCommandBuffer 62])
    ∧ (¬ ∃ c ∈ (RecordCommandBuffer driverBeginCommandBufferFails
          rendererWithThreeImages 0).2, c.isDrawIndexed = true)
    ∧ rendererWithWideExtent.extent = ⟨16777217, 900⟩
    ∧ Call.vkCmdSetViewport 16777216 900
        ∈ (RecordCommandBuffer driverAllSuccess rendererWithWideExtent 0).2
    ∧ Call.vkCmdSetViewport 16777217 900
        ∉ (RecordCommandBuffer driverAllSuccess rendererWithWideExtent 0).2 := by
  decide

/-- C14 (amended): for every registry of loaded models, whenever `vkBeginCommandBuffer`
succeeds, RecordCommandBuffer issues the begin-render-pass command, binds the pipeline,
sets the viewport to the current extent converted to float (the extent itself when
width and height are at most 2^24) and the scissor to the current extent, then records
the models, then issues the end-render-pass command; the indexed draws of the whole
recording are exactly one per registered model, in the registry's order, each with the
model's index count and instance count 1, and all lie between the scissor command and
the end of the render pass. A single registered model with 3 indices gives one indexed
draw of index count 3. -/
theorem RecordCommandBuffer_draws_each_model (d : Driver) (s : VulkanRenderer)
    (imageIndex : Nat) (hbegin : d.beginCommandBuffer = VK_SUCCESS) :
    (RecordCommandBuffer d s imageIndex).2 =
        [Call.vkBeginCommandBuffer s.command,
         Call.vkCmdBeginRenderPass s.frameBuffer[imageIndex]? s.extent,
         Call.vkCmdBindPipeline s.pipeline,
         Call.vkCmdSetViewport (castToFloat s.extent.width) (castToFloat s.extent.height),
         Call.vkCmdSetScissor s.extent]
        ++ (s.models.map drawModel).flatten
        ++ [Call.vkCmdEndRenderPass, Call.vkEndCommandBuffer s.command]
    ∧ (s.extent.width ≤ 2 ^ 24 → s.extent.height ≤ 2 ^ 24 →
        Call.vkCmdSetViewport (castToFloat s.extent.width) (castToFloat s.extent.height)
          = Call.vkCmdSetViewport s.extent.width s.extent.height)
    ∧ (s.models.map drawModel).flatten.filter Call.isDrawIndexed
        = s.models.map (fun m => Call.vkCmdDrawIndexed m.indexCount 1)
    ∧ (RecordCommandBuffer d s imageIndex).2.filter Call.isDrawIndexed
        = s.models.map (fun m => Call.vkCmdDrawIndexed m.indexCount 1)
    ∧ (∀ m : ObjModel, s.models = [m] → m.indexCount = 3 →
        (RecordCommandBuffer d s imageIndex).2.filter Call.isDrawIndexed
          = [Call.vkCmdDrawIndexed 3 1]) := by
  have hrec := RecordCommandBuffer_begin_ok d s imageIndex hbegin
  have hall : (RecordCommandBuffer d s imageIndex).2.filter Call.isDrawIndexed
      = s.models.map (fun m => Call.vkCmdDrawIndexed m.indexCount 1) := by
    rw [hrec]
    simp only [List.filter_append, drawModel_draws]
    simp [List.filter, Call.isDrawIndexed]
  refine ⟨hrec, ?_, drawModel_draws s.models, hall, ?_⟩
  · intro hw hh
    rw [castToFloat_exact _ hw, castToFloat_exact _ hh]
  · intro m hm h3
    rw [hall, hm, List.map_cons, List.map_nil, h3]

/-- Witness for C14 (amended): one registered model with 3 indices, every call
succeeding. -/
theorem RecordCommandBuffer_draws_each_model_witness :
    driverAllSuccess.beginCommandBuffer = VK_SUCCESS
    ∧ (RecordCommandBuffer driverAllSuccess rendererWithThreeImages 0).2.filter
          Call.isDrawIndexed = [Call.vkCmdDrawIndexed 3 1] :=
  ⟨by decide,
   (RecordCommandBuffer_draws_each_model driverAllSuccess rendererWithThreeImages 0
      (by decide)).2.2.2.2 ⟨80, 81, 3⟩ rfl rfl⟩

/-- Helper: whenever acquisition succeeds and recording fails, `DrawFrame` returns
false right after the recording attempt: the fence was reset and nothing is submitted. -/
theorem DrawFrame_record_fails (d : Driver) (s : VulkanRenderer)
    (hacq : d.acquireNextImage = VK_SUCCESS)
    (hrec : (RecordCommandBuffer d s d.imageIndex).1 = false) :
    DrawFrame d s =
      ⟨false, s,
        [Call.vkWaitForFences s.inFlightFence,
         Call.vkAcquireNextImageKHR s.swapchain s.imageMutex]
        ++ [Call.vkResetFences s.inFlightFence, Call.vkResetCommandBuffer s.command]
        ++ (RecordCommandBuffer d s d.imageIndex).2⟩ := by
  have hne : ¬ d.acquireNextImage = VK_SUBOPTIMAL_KHR := by
    rw [hacq]; decide
  unfold DrawFrame
  rw [if_neg hne, if_pos hacq]
  dsimp only
  rw [if_pos hrec]

/-- C15: with acquisition succeeding and `vkBeginCommandBuffer` failing, DrawFrame
resets the frame-complete fence and then returns false without any queue submission:
the fence is left reset with nothing that will signal it. The same happens when the
recording succeeds and `vkQueueSubmit` itself fails: the only submission after the
fence reset is the failed one. -/
theorem DrawFrame_record_failure_leaves_fence_reset :
    driverBeginCommandBufferFails.acquireNextImage = VK_SUCCESS
    ∧ (DrawFrame driverBeginCommandBufferFails rendererWithThreeImages).ret = false
    ∧ (DrawFrame driverBeginCommandBufferFails rendererWithThreeImages).calls
        = [Call.vkWaitForFences 70, Call.vkAcquireNextImageKHR 20 71,
           Call.vkResetFences 70, Call.vkResetCommandBuffer 62,
           Call.vkBeginCommandBuffer 62]
    ∧ Call.vkResetFences rendererWithThreeImages.inFlightFence
        ∈ (DrawFrame driverBeginCommandBufferFails rendererWithThreeImages).calls
    ∧ (∀ c ∈ (DrawFrame driverBeginCommandBufferFails rendererWithThreeImages).calls,
        c.isSubmit = false)
    ∧ driverQueueSubmitFails.queueSubmit ≠ VK_SUCCESS
    ∧ (DrawFrame driverQueueSubmitFails rendererWithThreeImages).ret = false
    ∧ Call.vkResetFences rendererWithThreeImages.inFlightFence
        ∈ (DrawFrame driverQueueSubmitFails rendererWithThreeImages).calls
    ∧ ((DrawFrame driverQueueSubmitFails rendererWithThreeImages).calls.filter
        Call.isSubmit).length = 1 := by
  refine ⟨by decide, by decide, by decide, by decide, by decide, by decide, by decide,
    by decide, by decide⟩

/-! ### CreateBuffer -/

/-- Helper: the mask test of line 566 reads bit `i` of the mask. -/
theorem and_one_shiftLeft_ne_zero (n i : Nat) :
    n &&& (1 <<< i) ≠ 0 ↔ n.testBit i = true := by
  rw [Nat.one_shiftLeft]
  constructor
  · intro h
    by_contra hb
    apply h
    apply Nat.eq_of_testBit_eq
    intro j
    rw [Nat.testBit_and, Nat.testBit_two_pow, Nat.zero_testBit]
    by_cases hij : i = j
    · subst hij; simp [hb]
    · simp [hij]
  · intro hb h
    have h2 : (n &&& 2 ^ i).testBit i = true := by
      rw [Nat.testBit_and, Nat.testBit_two_pow, hb]; simp
    rw [h, Nat.zero_testBit] at h2
    exact Bool.noConfusion h2

/-- Helper: the two tests of lines 566-568 in terms of the mask bit and the flags. -/
theorem memoryTypeMatches_iff (memoryTypeBits properties i propertyFlags : Nat) :
    memoryTypeMatches memoryTypeBits properties i propertyFlags = true
      ↔ memoryTypeBits.testBit i = true ∧ propertyFlags &&& properties = properties := by
  unfold memoryTypeMatches
  rw [Bool.and_eq_true, bne_iff_ne, beq_iff_eq, and_one_shiftLeft_ne_zero]

/-- Helper: the lookup loop from index `start`: it yields the position of the first
matching entry, and 0 when no entry matches. -/
theorem memoryTypeIndexLoop_spec (memoryTypeBits properties : Nat) (types : List Nat) :
    ∀ start : Nat,
      (∀ (k flags : Nat), types[k]? = some flags →
          memoryTypeMatches memoryTypeBits properties (start + k) flags = true →
          (∀ (j g : Nat), j < k → types[j]? = some g →
              memoryTypeMatches memoryTypeBits properties (start + j) g = false) →
          memoryTypeIndexLoop memoryTypeBits properties start types = start + k)
      ∧ ((∀ (k flags : Nat), types[k]? = some flags →
              memoryTypeMatches memoryTypeBits properties (start + k) flags = false) →
          memoryTypeIndexLoop memoryTypeBits properties start types = 0) := by
  induction types with
  | nil =>
    intro start
    exact ⟨by intro k flags hk; simp at hk, fun _ => rfl⟩
  | cons f rest ih =>
    intro start
    constructor
    · intro k flags hk hm hfirst
      cases k with
      | zero =>
        simp at hk; subst hk
        unfold memoryTypeIndexLoop
        rw [if_pos (by simpa using hm)]
        rfl
      | succ m =>
        have h0 : memoryTypeMatches memoryTypeBits properties start f = false := by
          simpa using hfirst 0 f (by omega) (by simp)
        unfold memoryTypeIndexLoop
        rw [if_neg (by simp [h0])]
        have e : start + (m + 1) = start + 1 + m := by omega
        rw [e]
        refine (ih (start + 1)).1 m flags (by simpa using hk) (by rw [← e]; exact hm) ?_
        intro j g hj hg
        have e2 : start + 1 + j = start + (j + 1) := by omega
        rw [e2]
        exact hfirst (j + 1) g (by omega) (by simpa using hg)
    · intro hall
      have h0 : memoryTypeMatches memoryTypeBits properties start f = false := by
        simpa using hall 0 f (by simp)
      unfold memoryTypeIndexLoop
      rw [if_neg (by simp [h0])]
      refine (ih (start + 1)).2 ?_
      intro k flags hk
      have e2 : start + 1 + k = start + (k + 1) := by omega
      rw [e2]
      exact hall (k + 1) flags (by simpa using hk)

/-- Helper: the lookup yields the lowest matching index. -/
theorem memoryTypeIndex_lowest (memoryTypeBits properties : Nat) (types : List Nat) (i : Nat)
    (hi : specMemoryTypeMatch memoryTypeBits properties types i)
    (hfirst : ∀ j, j < i → ¬ specMemoryTypeMatch memoryTypeBits properties types j) :
    memoryTypeIndex memoryTypeBits properties types = i := by
  obtain ⟨hbit, flags, hflags, hprops⟩ := hi
  have h := (memoryTypeIndexLoop_spec memoryTypeBits properties types 0).1 i flags hflags
    (by rw [Nat.zero_add]; exact (memoryTypeMatches_iff _ _ _ _).2 ⟨hbit, hprops⟩)
    (by
      intro j g hj hg
      rw [Nat.zero_add]
      cases hm : memoryTypeMatches memoryTypeBits properties j g with
      | false => rfl
      | true =>
        have hjm := (memoryTypeMatches_iff _ _ _ _).1 hm
        exact absurd ⟨hjm.1, g, hg, hjm.2⟩ (hfirst j hj))
  rw [Nat.zero_add] at h
  exact h

/-- Helper: the lookup yields 0 when no index matches. -/
theorem memoryTypeIndex_none (memoryTypeBits properties : Nat) (types : List Nat)
    (hno : ∀ i, ¬ specMemoryTypeMatch memoryTypeBits properties types i) :
    memoryTypeIndex memoryTypeBits properties types = 0 := by
  refine (memoryTypeIndexLoop_spec memoryTypeBits properties types 0).2 ?_
  intro k flags hk
  rw [Nat.zero_add]
  cases hm : memoryTypeMatches memoryTypeBits properties k flags with
  | false => rfl
  | true =>
    have hkm := (memoryTypeMatches_iff _ _ _ _).1 hm
    exact absurd ⟨hkm.1, flags, hk, hkm.2⟩ (hno k)

/-- Helper: with the lookup at 0, `CreateBuffer` returns the null handle and allocates
nothing. -/
theorem CreateBuffer_index_zero (d : BufferDriver) (size usage properties bufferMemory : Nat)
    (h0 : memoryTypeIndex d.memRequirements.memoryTypeBits properties d.memoryTypes = 0) :
    (CreateBuffer d size usage properties bufferMemory).buffer = 0
    ∧ ∀ c ∈ (CreateBuffer d size usage properties bufferMemory).calls,
        c.isAllocate = false := by
  unfold CreateBuffer
  by_cases hc : d.createBuffer = VK_SUCCESS
  · rw [if_neg (not_not.2 hc)]
    dsimp only
    rw [if_pos h0]
    refine ⟨rfl, ?_⟩
    intro c hcm
    simp only [List.mem_cons, List.mem_singleton, List.not_mem_nil, or_false] at hcm
    rcases hcm with e | e | e <;> subst e <;> rfl
  · rw [if_pos hc]
    refine ⟨rfl, ?_⟩
    intro c hcm
    simp only [List.mem_singleton] at hcm
    subst hcm; rfl

/-- Helper: with the buffer created and the lookup at least 1, `CreateBuffer` issues one
allocation, with the index the lookup found. -/
theorem CreateBuffer_allocates (d : BufferDriver) (size usage properties bufferMemory : Nat)
    (hc : d.createBuffer = VK_SUCCESS)
    (h1 : 1 ≤ memoryTypeIndex d.memRequirements.memoryTypeBits properties d.memoryTypes) :
    (CreateBuffer d size usage properties bufferMemory).calls.filter BufferCall.isAllocate
      = [BufferCall.vkAllocateMemory d.memRequirements.size
          (memoryTypeIndex d.memRequirements.memoryTypeBits properties d.memoryTypes)] := by
  have hne : ¬ memoryTypeIndex d.memRequirements.memoryTypeBits properties d.memoryTypes = 0 := by
    omega
  unfold CreateBuffer
  rw [if_neg (not_not.2 hc)]
  dsimp only
  rw [if_neg hne]
  by_cases ha : d.allocateMemory = VK_SUCCESS
  · rw [if_neg (not_not.2 ha)]
    by_cases hb : d.bindBufferMemory = VK_SUCCESS
    · rw [if_neg (not_not.2 hb)]
      simp [List.filter, BufferCall.isAllocate]
    · rw [if_pos hb]
      simp [List.filter, BufferCall.isAllocate]
  · rw [if_pos ha]
    simp [List.filter, BufferCall.isAllocate]

/-- C13: for every memory-type table, requirements mask and requested property flags,
the lookup of CreateBuffer yields the lowest index i with bit i of memoryTypeBits set
and (propertyFlags[i] & requested) == requested, and 0 when no index matches; with the
buffer created, CreateBuffer allocates with that index when it is at least 1; it
returns the null handle, allocating nothing, when no index matches and also when index
0 matches, even if a higher index matches too (as for two device-local types, both
accepted by the buffer). -/
theorem CreateBuffer_memoryType_lookup (d : BufferDriver)
    (size usage properties bufferMemory : Nat) :
    (∀ i, specMemoryTypeMatch d.memRequirements.memoryTypeBits properties d.memoryTypes i →
        (∀ j, j < i →
          ¬ specMemoryTypeMatch d.memRequirements.memoryTypeBits properties d.memoryTypes j) →
        memoryTypeIndex d.memRequirements.memoryTypeBits properties d.memoryTypes = i)
    ∧ ((∀ i, ¬ specMemoryTypeMatch d.memRequirements.memoryTypeBits properties
            d.memoryTypes i) →
        memoryTypeIndex d.memRequirements.memoryTypeBits properties d.memoryTypes = 0)
    ∧ (d.createBuffer = VK_SUCCESS →
        1 ≤ memoryTypeIndex d.memRequirements.memoryTypeBits properties d.memoryTypes →
        (CreateBuffer d size usage properties bufferMemory).calls.filter BufferCall.isAllocate
          = [BufferCall.vkAllocateMemory d.memRequirements.size
              (memoryTypeIndex d.memRequirements.memoryTypeBits properties d.memoryTypes)])
    ∧ ((∀ i, ¬ specMemoryTypeMatch d.memRequirements.memoryTypeBits properties
            d.memoryTypes i) →
        (CreateBuffer d size usage properties bufferMemory).buffer = 0
        ∧ ∀ c ∈ (CreateBuffer d size usage properties bufferMemory).calls,
            c.isAllocate = false)
    ∧ (specMemoryTypeMatch d.memRequirements.memoryTypeBits properties d.memoryTypes 0 →
        (CreateBuffer d size usage properties bufferMemory).buffer = 0
        ∧ ∀ c ∈ (CreateBuffer d size usage properties bufferMemory).calls,
            c.isAllocate = false)
    ∧ (specMemoryTypeMatch 3 1 bufferDriverBothDeviceLocal.memoryTypes 0
        ∧ specMemoryTypeMatch 3 1 bufferDriverBothDeviceLocal.memoryTypes 1
        ∧ (CreateBuffer bufferDriverBothDeviceLocal 256 1 1 0).buffer = 0) := by
  refine ⟨fun i hi hfirst => memoryTypeIndex_lowest _ _ _ i hi hfirst,
    fun hno => memoryTypeIndex_none _ _ _ hno,
    fun hc h1 => CreateBuffer_allocates d size usage properties bufferMemory hc h1,
    fun hno => CreateBuffer_index_zero d size usage properties bufferMemory
      (memoryTypeIndex_none _ _ _ hno),
    fun h0 => CreateBuffer_index_zero d size usage properties bufferMemory
      (memoryTypeIndex_lowest _ _ _ 0 h0 (fun j hj => absurd hj (Nat.not_lt_zero j))),
    by decide, by decide, by decide⟩

/-! ### The frame loop over the log of device calls -/

/-- Helper: `CreateSwapChain` leaves the fence and the graphics queue alone. -/
theorem CreateSwapChain_sync (d : Driver) (s : VulkanRenderer) :
    (CreateSwapChain d s).state.inFlightFence = s.inFlightFence
    ∧ (CreateSwapChain d s).state.graphicsQueue = s.graphicsQueue := by
  unfold CreateSwapChain
  by_cases h : d.createSwapchain = VK_SUCCESS <;> simp [h]

/-- Helper: `RecreateSwapChain` leaves the fence and the graphics queue alone. -/
theorem RecreateSwapChain_sync (d : Driver) (s : VulkanRenderer) :
    (RecreateSwapChain d s).state.inFlightFence = s.inFlightFence
    ∧ (RecreateSwapChain d s).state.graphicsQueue = s.graphicsQueue := by
  have h1 := CreateSwapChain_sync d s
  have h2 : (SetupImageViews d (CreateSwapChain d s).state).state.inFlightFence
        = (CreateSwapChain d s).state.inFlightFence
      ∧ (SetupImageViews d (CreateSwapChain d s).state).state.graphicsQueue
        = (CreateSwapChain d s).state.graphicsQueue := ⟨rfl, rfl⟩
  have h3 : (CreateFrameBuffers d (SetupImageViews d (CreateSwapChain d s).state).state).state.inFlightFence
        = (SetupImageViews d (CreateSwapChain d s).state).state.inFlightFence
      ∧ (CreateFrameBuffers d (SetupImageViews d (CreateSwapChain d s).state).state).state.graphicsQueue
        = (SetupImageViews d (CreateSwapChain d s).state).state.graphicsQueue := ⟨rfl, rfl⟩
  unfold RecreateSwapChain
  by_cases h0 : d.deviceWaitIdle = 0
  · rw [if_pos h0]; exact ⟨rfl, rfl⟩
  · rw [if_neg h0]
    dsimp only
    by_cases hr1 : (CreateSwapChain d s).ret = false
    · rw [if_pos hr1]; exact h1
    · rw [if_neg hr1]
      by_cases hr2 : (SetupImageViews d (CreateSwapChain d s).state).ret = false
      · rw [if_pos hr2]; exact ⟨h2.1.trans h1.1, h2.2.trans h1.2⟩
      · rw [if_neg hr2]
        exact ⟨h3.1.trans (h2.1.trans h1.1), h3.2.trans (h2.2.trans h1.2)⟩

/-- Helper: a recording call is not a submission. -/
theorem Call.isRecording_not_submit (c : Call) (h : c.isRecording = true) :
    c.isSubmit = false := by
  cases c <;> simp_all [Call.isRecording, Call.isSubmit]

/-- Helper: whenever acquisition and recording succeed and `vkQueueSubmit` fails,
`DrawFrame` returns false right after the submission attempt. -/
theorem DrawFrame_submit_fails (d : Driver) (s : VulkanRenderer)
    (hacq : d.acquireNextImage = VK_SUCCESS)
    (hrec : (RecordCommandBuffer d s d.imageIndex).1 = true)
    (hsub : d.queueSubmit ≠ VK_SUCCESS) :
    DrawFrame d s =
      ⟨false, s,
        [Call.vkWaitForFences s.inFlightFence,
         Call.vkAcquireNextImageKHR s.swapchain s.imageMutex]
        ++ [Call.vkResetFences s.inFlightFence, Call.vkResetCommandBuffer s.command]
        ++ (RecordCommandBuffer d s d.imageIndex).2
        ++ [Call.vkQueueSubmit s.graphicsQueue s.inFlightFence]⟩ := by
  have hne : ¬ d.acquireNextImage = VK_SUBOPTIMAL_KHR := by
    rw [hacq]; decide
  have hrec2 : ¬ (RecordCommandBuffer d s d.imageIndex).1 = false := by
    rw [hrec]; decide
  unfold DrawFrame
  rw [if_neg hne, if_pos hacq]
  dsimp only
  rw [if_neg hrec2, if_pos hsub]

/-- Helper: a recording returns true exactly when begin and end both succeed. -/
theorem RecordCommandBuffer_ret (d : Driver) (s : VulkanRenderer) (imageIndex : Nat) :
    (RecordCommandBuffer d s imageIndex).1 = true
      ↔ d.beginCommandBuffer = VK_SUCCESS ∧ d.endCommandBuffer = VK_SUCCESS := by
  unfold RecordCommandBuffer
  by_cases hb : d.beginCommandBuffer = VK_SUCCESS
  · rw [if_neg (not_not.2 hb)]
    simp [hb]
  · rw [if_pos hb]
    simp [hb]

/-- Helper: the two shapes of the calls of one `DrawFrame` invocation. Either no
submission is issued, or the calls are the fence wait, the acquire, the fence reset,
the command-buffer reset, a complete recording, the submission with the frame fence on
the graphics queue, and then calls that are not submissions. The fence and the
graphics queue are the same afterwards. -/
theorem DrawFrame_shape (d : Driver) (s : VulkanRenderer) :
    (DrawFrame d s).state.inFlightFence = s.inFlightFence
    ∧ (DrawFrame d s).state.graphicsQueue = s.graphicsQueue
    ∧ ∃ tail : List Call, (∀ c ∈ tail, c.isSubmit = false)
      ∧ ((DrawFrame d s).calls
            = [Call.vkWaitForFences s.inFlightFence,
               Call.vkAcquireNextImageKHR s.swapchain s.imageMutex] ++ tail
        ∨ ((RecordCommandBuffer d s d.imageIndex).1 = true
          ∧ (DrawFrame d s).calls
            = [Call.vkWaitForFences s.inFlightFence,
               Call.vkAcquireNextImageKHR s.swapchain s.imageMutex,
               Call.vkResetFences s.inFlightFence, Call.vkResetCommandBuffer s.command]
              ++ (RecordCommandBuffer d s d.imageIndex).2
              ++ [Call.vkQueueSubmit s.graphicsQueue s.inFlightFence] ++ tail)) := by
  by_cases hsubopt : d.acquireNextImage = VK_SUBOPTIMAL_KHR
  · rw [DrawFrame_acquire_suboptimal d s hsubopt]
    refine ⟨(RecreateSwapChain_sync d s).1, (RecreateSwapChain_sync d s).2,
      (RecreateSwapChain d s).calls, ?_, Or.inl rfl⟩
    intro c hc
    exact (Call.isSwapchainSetup_excludes c (RecreateSwapChain_calls d s c hc)).2.2.1
  by_cases hacq : d.acquireNextImage = VK_SUCCESS
  swap
  · rw [DrawFrame_acquire_other d s hsubopt hacq]
    exact ⟨rfl, rfl, [], by intro c hc; simp at hc, Or.inl (by simp)⟩
  by_cases hrec : (RecordCommandBuffer d s d.imageIndex).1 = true
  swap
  · have hrec2 : (RecordCommandBuffer d s d.imageIndex).1 = false := by
      simpa using hrec
    rw [DrawFrame_record_fails d s hacq hrec2]
    refine ⟨rfl, rfl,
      [Call.vkResetFences s.inFlightFence, Call.vkResetCommandBuffer s.command]
        ++ (RecordCommandBuffer d s d.imageIndex).2, ?_, Or.inl (by simp)⟩
    intro c hc
    simp only [List.mem_append, List.mem_cons, List.mem_singleton, List.not_mem_nil,
      or_false] at hc
    rcases hc with (e | e) | hm
    · subst e; rfl
    · subst e; rfl
    · exact Call.isRecording_not_submit c (RecordCommandBuffer_calls d s d.imageIndex c hm)
  by_cases hsub : d.queueSubmit = VK_SUCCESS
  swap
  · rw [DrawFrame_submit_fails d s hacq hrec hsub]
    exact ⟨rfl, rfl, [], by intro c hc; simp at hc, Or.inr ⟨hrec, by simp⟩⟩
  obtain ⟨hbegin, hend⟩ := (RecordCommandBuffer_ret d s d.imageIndex).1 hrec
  rw [DrawFrame_present_step d s hacq hbegin hend hsub]
  by_cases hp : d.queuePresent = VK_ERROR_OUT_OF_DATE_KHR ∨ d.queuePresent = VK_SUBOPTIMAL_KHR
  · rw [if_pos hp]
    refine ⟨(CreateSwapChain_sync d s).1, (CreateSwapChain_sync d s).2,
      [Call.vkQueuePresentKHR s.presentQueue s.swapchain d.imageIndex]
        ++ (CreateSwapChain d s).calls, ?_, Or.inr ⟨hrec, by simp⟩⟩
    intro c hc
    simp only [List.mem_append, List.mem_singleton] at hc
    rcases hc with e | hm
    · subst e; rfl
    · exact (Call.isSwapchainSetup_excludes c (CreateSwapChain_calls d s c hm)).2.2.1
  · rw [if_neg hp]
    by_cases hps : d.queuePresent = VK_SUCCESS
    · rw [if_pos hps]
      refine ⟨rfl, rfl, [Call.vkQueuePresentKHR s.presentQueue s.swapchain d.imageIndex],
        ?_, Or.inr ⟨hrec, by simp⟩⟩
      intro c hc
      simp only [List.mem_singleton] at hc
      subst hc; rfl
    · rw [if_neg hps]
      refine ⟨rfl, rfl, [Call.vkQueuePresentKHR s.presentQueue s.swapchain d.imageIndex],
        ?_, Or.inr ⟨hrec, by simp⟩⟩
      intro c hc
      simp only [List.mem_singleton] at hc
      subst hc; rfl

/-- Helper: in a list made of entries that are not submissions, one submission, and
again entries that are not submissions, a submission can only be found at the middle
position. -/
theorem submit_position (before after : List Call) (x c : Call) (i : Nat)
    (hb : ∀ e ∈ before, e.isSubmit = false) (ha : ∀ e ∈ after, e.isSubmit = false)
    (hi : (before ++ x :: after)[i]? = some c) (hc : c.isSubmit = true) :
    i = before.length ∧ c = x := by
  rcases Nat.lt_trichotomy i before.length with hlt | heq | hgt
  · rw [List.getElem?_append_left hlt] at hi
    have := hb c (List.getElem?_mem hi)
    rw [this] at hc
    exact Bool.noConfusion hc
  · subst heq
    rw [List.getElem?_append_right (Nat.le_refl _)] at hi
    simp at hi
    exact ⟨rfl, hi.symm⟩
  · rw [List.getElem?_append_right (Nat.le_of_lt hgt)] at hi
    obtain ⟨m, hm⟩ : ∃ m, i - before.length = m + 1 := ⟨i - before.length - 1, by omega⟩
    rw [hm] at hi
    simp at hi
    have := ha c (List.getElem?_mem hi)
    rw [this] at hc
    exact Bool.noConfusion hc

/-- Helper: the first call of every `DrawFrame` invocation is the wait on the frame
fence, and a submission among its calls is the one with the frame fence on the graphics
queue, at the position right after the recording. -/
theorem DrawFrame_calls_index (d : Driver) (s : VulkanRenderer) :
    (DrawFrame d s).calls[0]? = some (Call.vkWaitForFences s.inFlightFence)
    ∧ ∀ (i : Nat) (c : Call), (DrawFrame d s).calls[i]? = some c → c.isSubmit = true →
        c = Call.vkQueueSubmit s.graphicsQueue s.inFlightFence
        ∧ i = 4 + (RecordCommandBuffer d s d.imageIndex).2.length := by
  obtain ⟨_, _, tail, htail, hshape | ⟨_, hshape⟩⟩ := DrawFrame_shape d s
  · rw [hshape]
    refine ⟨by simp, ?_⟩
    intro i c hi hc
    have hmem := List.getElem?_mem hi
    simp only [List.mem_append, List.mem_cons, List.mem_singleton, List.not_mem_nil,
      or_false] at hmem
    rcases hmem with (e | e) | hm
    · subst e; exact Bool.noConfusion hc
    · subst e; exact Bool.noConfusion hc
    · rw [htail c hm] at hc; exact Bool.noConfusion hc
  · rw [hshape]
    refine ⟨by simp, ?_⟩
    intro i c hi hc
    have hb : ∀ e ∈ [Call.vkWaitForFences s.inFlightFence,
        Call.vkAcquireNextImageKHR s.swapchain s.imageMutex,
        Call.vkResetFences s.inFlightFence, Call.vkResetCommandBuffer s.command]
        ++ (RecordCommandBuffer d s d.imageIndex).2, e.isSubmit = false := by
      intro e he
      simp only [List.mem_append, List.mem_cons, List.mem_singleton, List.not_mem_nil,
        or_false] at he
      rcases he with (e1 | e1 | e1 | e1) | hm
      · subst e1; rfl
      · subst e1; rfl
      · subst e1; rfl
      · subst e1; rfl
      · exact Call.isRecording_not_submit e (RecordCommandBuffer_calls d s d.imageIndex e hm)
    have hi2 : (([Call.vkWaitForFences s.inFlightFence,
        Call.vkAcquireNextImageKHR s.swapchain s.imageMutex,
        Call.vkResetFences s.inFlightFence, Call.vkResetCommandBuffer s.command]
        ++ (RecordCommandBuffer d s d.imageIndex).2)
        ++ Call.vkQueueSubmit s.graphicsQueue s.inFlightFence :: tail)[i]? = some c := by
      simpa using hi
    have h := submit_position _ _ _ c i hb htail hi2 hc
    refine ⟨h.2, ?_⟩
    rw [h.1]
    simp
    omega

/-- Helper: over a run of `DrawFrame` invocations from state `s`: a non-empty log starts
with the wait on the frame fence; every submission carries the frame fence of `s`; and
between a submission and any later submission there is a wait on the fence the earlier
one carries. -/
theorem DrawFrames_separated (ds : List Driver) :
    ∀ s : VulkanRenderer,
      (∀ c, (DrawFrames ds s)[0]? = some c → c = Call.vkWaitForFences s.inFlightFence)
      ∧ (∀ (i : Nat) (q f : Handle), (DrawFrames ds s)[i]? = some (Call.vkQueueSubmit q f) →
          f = s.inFlightFence)
      ∧ (∀ (i j : Nat) (q f : Handle) (c2 : Call), i < j →
          (DrawFrames ds s)[i]? = some (Call.vkQueueSubmit q f) →
          (DrawFrames ds s)[j]? = some c2 → c2.isSubmit = true →
          ∃ k, i < k ∧ k < j ∧ (DrawFrames ds s)[k]? = some (Call.vkWaitForFences f)) := by
  induction ds with
  | nil =>
    intro s
    refine ⟨?_, ?_, ?_⟩
    · intro c hc; simp [DrawFrames] at hc
    · intro i q f hi; simp [DrawFrames] at hi
    · intro i j q f c2 _ hi; simp [DrawFrames] at hi
  | cons d rest ih =>
    intro s
    obtain ⟨hfence, _, _⟩ := DrawFrame_shape d s
    obtain ⟨hhead, hsubmit⟩ := DrawFrame_calls_index d s
    obtain ⟨ihHead, ihFence, ihSep⟩ := ih (DrawFrame d s).state
    have hpos : 0 < (DrawFrame d s).calls.length := by
      by_contra hc
      have : (DrawFrame d s).calls[0]? = none := List.getElem?_eq_none (by omega)
      rw [this] at hhead
      exact Option.noConfusion hhead
    have hcons : DrawFrames (d :: rest) s
        = (DrawFrame d s).calls ++ DrawFrames rest (DrawFrame d s).state := rfl
    have hleft : ∀ i, i < (DrawFrame d s).calls.length →
        (DrawFrames (d :: rest) s)[i]? = (DrawFrame d s).calls[i]? := by
      intro i hi
      rw [hcons]
      exact List.getElem?_append_left hi
    have hright : ∀ i, (DrawFrame d s).calls.length ≤ i →
        (DrawFrames (d :: rest) s)[i]?
          = (DrawFrames rest (DrawFrame d s).state)[i - (DrawFrame d s).calls.length]? := by
      intro i hi
      rw [hcons]
      exact List.getElem?_append_right hi
    have hfenceOf : ∀ (i : Nat) (q f : Handle),
        (DrawFrames (d :: rest) s)[i]? = some (Call.vkQueueSubmit q f) →
        f = s.inFlightFence := by
      intro i q f hi
      by_cases hlt : i < (DrawFrame d s).calls.length
      · rw [hleft i hlt] at hi
        have h := (hsubmit i _ hi rfl).1
        injection h with _ hf
      · rw [hright i (by omega)] at hi
        rw [ihFence _ q f hi, hfence]
    refine ⟨?_, hfenceOf, ?_⟩
    · intro c hc
      rw [hleft 0 hpos, hhead] at hc
      injection hc with hc
      exact hc.symm
    · intro i j q f c2 hij hi hj hc2
      have hf := hfenceOf i q f hi
      by_cases hi_lt : i < (DrawFrame d s).calls.length
      · by_cases hj_lt : j < (DrawFrame d s).calls.length
        · rw [hleft i hi_lt] at hi
          rw [hleft j hj_lt] at hj
          have h1 := (hsubmit i _ hi rfl).2
          have h2 := (hsubmit j c2 hj hc2).2
          omega
        · have hj2 := hj
          rw [hright j (by omega)] at hj2
          have hne : j ≠ (DrawFrame d s).calls.length := by
            intro e
            rw [e, Nat.sub_self] at hj2
            rw [ihHead c2 hj2] at hc2
            exact Bool.noConfusion hc2
          have h0 : (DrawFrames rest (DrawFrame d s).state)[0]?
              = some (Call.vkWaitForFences f) := by
            cases h : (DrawFrames rest (DrawFrame d s).state)[0]? with
            | none =>
              have hlen : (DrawFrames rest (DrawFrame d s).state).length = 0 := by
                by_contra hc
                have hlt : 0 < (DrawFrames rest (DrawFrame d s).state).length := by omega
                rw [List.getElem?_eq_getElem hlt] at h
                exact Option.noConfusion h
              have : (DrawFrames rest (DrawFrame d s).state)[j
                  - (DrawFrame d s).calls.length]? = none :=
                List.getElem?_eq_none (by omega)
              rw [this] at hj2
              exact Option.noConfusion hj2
            | some c0 =>
              rw [ihHead c0 h, hfence, hf]
          refine ⟨(DrawFrame d s).calls.length, hi_lt, by omega, ?_⟩
          rw [hright _ (Nat.le_refl _), Nat.sub_self]
          exact h0
      · rw [hright i (by omega)] at hi
        rw [hright j (by omega)] at hj
        obtain ⟨k, hk1, hk2, hk⟩ := ihSep (i - (DrawFrame d s).calls.length)
          (j - (DrawFrame d s).calls.length) q f c2 (by omega) hi hj hc2
        refine ⟨k + (DrawFrame d s).calls.length, by omega, by omega, ?_⟩
        rw [hright _ (by omega), Nat.add_sub_cancel]
        exact hk

/-- Helper: a list without submissions has an empty filter of submissions. -/
theorem filter_isSubmit_nil (l : List Call) (h : ∀ c ∈ l, c.isSubmit = false) :
    l.filter Call.isSubmit = [] := by
  rw [List.filter_eq_nil_iff]
  intro c hc
  rw [h c hc]
  exact Bool.false_ne_true

/-- C12: over the log of device calls. In every DrawFrame invocation the first call is
the wait on the frame-complete fence; at most one queue submission is issued; if one is
issued, it is on the graphics queue with the frame-complete fence and comes after the
fence wait, the acquire, the fence reset, the command-buffer reset and a complete
successful recording, and nothing after it is a submission. Hence in the log of any run
of DrawFrame invocations, between a submission and any later submission there is a wait
on the fence the earlier one carries. -/
theorem DrawFrame_one_fenced_submission (ds : List Driver) (d : Driver)
    (s : VulkanRenderer) :
    (DrawFrame d s).calls.head? = some (Call.vkWaitForFences s.inFlightFence)
    ∧ ((DrawFrame d s).calls.filter Call.isSubmit).length ≤ 1
    ∧ ((∃ c ∈ (DrawFrame d s).calls, c.isSubmit = true) →
        ∃ tail : List Call, (∀ c ∈ tail, c.isSubmit = false)
          ∧ (RecordCommandBuffer d s d.imageIndex).1 = true
          ∧ (DrawFrame d s).calls
            = [Call.vkWaitForFences s.inFlightFence,
               Call.vkAcquireNextImageKHR s.swapchain s.imageMutex,
               Call.vkResetFences s.inFlightFence, Call.vkResetCommandBuffer s.command]
              ++ (RecordCommandBuffer d s d.imageIndex).2
              ++ [Call.vkQueueSubmit s.graphicsQueue s.inFlightFence] ++ tail)
    ∧ (∀ (i j : Nat) (q f : Handle) (c2 : Call), i < j →
        (DrawFrames ds s)[i]? = some (Call.vkQueueSubmit q f) →
        (DrawFrames ds s)[j]? = some c2 → c2.isSubmit = true →
        ∃ k, i < k ∧ k < j ∧ (DrawFrames ds s)[k]? = some (Call.vkWaitForFences f)) := by
  have hrecording : ∀ c ∈ (RecordCommandBuffer d s d.imageIndex).2, c.isSubmit = false :=
    fun c hc => Call.isRecording_not_submit c (RecordCommandBuffer_calls d s d.imageIndex c hc)
  refine ⟨?_, ?_, ?_, (DrawFrames_separated ds s).2.2⟩
  · rw [List.head?_eq_getElem?]
    exact (DrawFrame_calls_index d s).1
  · obtain ⟨_, _, tail, htail, hshape | ⟨_, hshape⟩⟩ := DrawFrame_shape d s
    · rw [hshape, List.filter_append, filter_isSubmit_nil tail htail]
      simp [List.filter, Call.isSubmit]
    · rw [hshape]
      simp only [List.filter_append, filter_isSubmit_nil tail htail,
        filter_isSubmit_nil _ hrecording]
      simp [List.filter, Call.isSubmit]
  · rintro ⟨c, hc, hsub⟩
    obtain ⟨_, _, tail, htail, hshape | ⟨hrec, hshape⟩⟩ := DrawFrame_shape d s
    · rw [hshape] at hc
      simp only [List.mem_append, List.mem_cons, List.mem_singleton, List.not_mem_nil,
        or_false] at hc
      rcases hc with (e | e) | hm
      · subst e; exact Bool.noConfusion hsub
      · subst e; exact Bool.noConfusion hsub
      · rw [htail c hm] at hsub; exact Bool.noConfusion hsub
    · exact ⟨tail, htail, hrec, hshape⟩

/-! ### The recreation at present -/

/-- Helper: `CreateSwapChain` issues no device wait and creates no image view and no
framebuffer. -/
theorem CreateSwapChain_calls_swapchain_only (d : Driver) (s : VulkanRenderer) :
    ∀ c ∈ (CreateSwapChain d s).calls,
      c ≠ Call.vkDeviceWaitIdle ∧ c.isImageViewCreate = false
        ∧ c.isFramebufferCreate = false := by
  have hall : (CreateSwapChain d s).calls.all
      (fun c => decide (c ≠ Call.vkDeviceWaitIdle) && !c.isImageViewCreate
        && !c.isFramebufferCreate) = true := by
    unfold CreateSwapChain
    by_cases h : d.createSwapchain = VK_SUCCESS <;>
      simp [h, Call.isImageViewCreate, Call.isFramebufferCreate]
  intro c hc
  have h := List.all_eq_true.1 hall c hc
  simpa [and_assoc] using h

/-- Helper: on every frame that reaches the present step and whose present reports
OUT_OF_DATE or SUBOPTIMAL, no call of the invocation is a device wait, an image view
creation or a framebuffer creation. -/
theorem DrawFrame_present_recreate_calls (d : Driver) (s : VulkanRenderer)
    (hacq : d.acquireNextImage = VK_SUCCESS) (hbegin : d.beginCommandBuffer = VK_SUCCESS)
    (hend : d.endCommandBuffer = VK_SUCCESS) (hsub : d.queueSubmit = VK_SUCCESS)
    (hp : d.queuePresent = VK_ERROR_OUT_OF_DATE_KHR ∨ d.queuePresent = VK_SUBOPTIMAL_KHR) :
    ∀ c ∈ (DrawFrame d s).calls,
      c ≠ Call.vkDeviceWaitIdle ∧ c.isImageViewCreate = false
        ∧ c.isFramebufferCreate = false := by
  rw [DrawFrame_present_step d s hacq hbegin hend hsub, if_pos hp]
  intro c hc
  simp only [List.mem_append, List.mem_cons, List.mem_singleton, List.not_mem_nil,
    or_false] at hc
  rcases hc with (((((e | e) | (e | e)) | hm) | e) | e) | hm
  · subst e; exact ⟨by simp, rfl, rfl⟩
  · subst e; exact ⟨by simp, rfl, rfl⟩
  · subst e; exact ⟨by simp, rfl, rfl⟩
  · subst e; exact ⟨by simp, rfl, rfl⟩
  · have hr := RecordCommandBuffer_calls d s d.imageIndex c hm
    refine ⟨?_, ?_, ?_⟩
    · intro e; subst e; exact Bool.noConfusion hr
    · cases c <;> simp_all [Call.isRecording, Call.isImageViewCreate]
    · cases c <;> simp_all [Call.isRecording, Call.isFramebufferCreate]
  · subst e; exact ⟨by simp, rfl, rfl⟩
  · subst e; exact ⟨by simp, rfl, rfl⟩
  · exact CreateSwapChain_calls_swapchain_only d s c hm

/-- C10: with acquire, recording and submission succeeding and present reporting
SUBOPTIMAL, DrawFrame returns true after calling CreateSwapChain alone: a new swapchain
with two images is created, but no device wait is issued and no image view and no
framebuffer is created, so the three views and three framebuffers of the old swapchain
stay in place. On the acquire path the recreation does create image views and
framebuffers. -/
theorem DrawFrame_present_suboptimal_creates_swapchain_only :
    driverPresentSuboptimal.acquireNextImage = VK_SUCCESS
    ∧ driverPresentSuboptimal.queueSubmit = VK_SUCCESS
    ∧ driverPresentSuboptimal.queuePresent = VK_SUBOPTIMAL_KHR
    ∧ driverPresentSuboptimal.createSwapchain = VK_SUCCESS
    ∧ (DrawFrame driverPresentSuboptimal rendererWithThreeImages).ret = true
    ∧ (∃ c ∈ (DrawFrame driverPresentSuboptimal rendererWithThreeImages).calls,
        c.isSwapchainCreate = true)
    ∧ (∀ c ∈ (DrawFrame driverPresentSuboptimal rendererWithThreeImages).calls,
        c ≠ Call.vkDeviceWaitIdle ∧ c.isImageViewCreate = false
          ∧ c.isFramebufferCreate = false)
    ∧ (DrawFrame driverPresentSuboptimal rendererWithThreeImages).state.swapchain = 21
    ∧ (DrawFrame driverPresentSuboptimal rendererWithThreeImages).state.queuedFrames
        = [100, 101]
    ∧ (DrawFrame driverPresentSuboptimal rendererWithThreeImages).state.queuedFrameViews
        = [41, 42, 43]
    ∧ (DrawFrame driverPresentSuboptimal rendererWithThreeImages).state.frameBuffer
        = [51, 52, 53]
    ∧ (DrawFrame driverPresentSuboptimal rendererWithThreeImages).state.currentFrame = 1
    ∧ (∃ c ∈ (DrawFrame driverSuboptimalWaitIdleError rendererWithThreeImages).calls,
        c.isImageViewCreate = true)
    ∧ (∃ c ∈ (DrawFrame driverSuboptimalWaitIdleError rendererWithThreeImages).calls,
        c.isFramebufferCreate = true) := by
  decide

end NycaTech.Renderer
